import Mathlib

set_option maxHeartbeats 1000000

/-
Shallow embedding of the phidata ServerBase resource-graph builders
(src/phidata/app/server/server_base.py) and of the conversation telemetry
logger (src/phi/api/conversation.py).

Python dictionaries are modelled as association lists with unique keys:
assignment replaces the value of an existing key in place and appends a
fresh key at the end, exactly like insertion-ordered Python dicts.  Python
optional values are Option, and a function that can either raise, return
None, or return a built object returns a BuildResult.
-/

namespace Phidata

/-- A raised Python exception, by class and message. -/
inductive PyError where
  | typeError (msg : String)
  | keyError (msg : String)
  | valueError (msg : String)
deriving DecidableEq

/-- Outcome of a Python call that may raise, return None, or return a value. -/
inductive BuildResult (A : Type) where
  | raised (e : PyError)
  | absent
  | built (g : A)
deriving DecidableEq

/-- True when the call returned an actual object (neither None nor a raise). -/
def BuildResult.isBuilt {A : Type} : BuildResult A → Bool
  | .built _ => true
  | _ => false

/-- A Python value appearing in an env dict: the code stores strings and, in
one place (GIT_SYNC_ONE_TIME), a bool. -/
inductive PyVal where
  | str (s : String)
  | bool (b : Bool)
deriving DecidableEq

/-- Python str() of a bool, as used for INSTALL_REQUIREMENTS etc. -/
def pyStr (b : Bool) : String := if b then "True" else "False"

/-- A Union[str, int] value. -/
inductive StrOrNat where
  | s (v : String)
  | n (v : Nat)
deriving DecidableEq

/-- A Union[str, List] value (entrypoint / command). -/
inductive StrOrList where
  | str (s : String)
  | list (l : List String)
deriving DecidableEq

abbrev EnvMap := List (String × PyVal)
abbrev Labels := List (String × String)

/-- Python truthiness-based `a or b` for optional strings with a string
default: an absent or empty string falls back to the default. -/
def pyOrD (a : Option String) (b : String) : String :=
  match a with
  | some s => if s.isEmpty then b else s
  | none => b

/-- Python truthiness-based `a or b` for two optional strings. -/
def pyOrOpt (a b : Option String) : Option String :=
  match a with
  | some s => if s.isEmpty then b else some s
  | none => b

/-- Python truthiness of an optional list or dict: present and non-empty. -/
def pyTruthy {A : Type} (o : Option (List A)) : Bool :=
  match o with
  | some l => !l.isEmpty
  | none => false

/-- Python `l if len(l) > 0 else None`. -/
def listOpt {A : Type} (l : List A) : Option (List A) :=
  if l.isEmpty then none else some l

/-- First-some choice, used to state override precedence. -/
def optOr {A : Type} : Option A → Option A → Option A
  | some a, _ => some a
  | none, b => b

/-- Lookup in an insertion-ordered dict (first binding of the key). -/
def dictLookup {V : Type} (d : List (String × V)) (k : String) : Option V :=
  match d with
  | [] => none
  | (k0, v0) :: rest => if k0 = k then some v0 else dictLookup rest k

/-- Key membership in a dict. -/
def keyMem {V : Type} (d : List (String × V)) (k : String) : Bool :=
  match d with
  | [] => false
  | (k0, _) :: rest => k0 = k || keyMem rest k

/-- Replace an entry whose key is k by the binding (k, v); keep others. -/
def setEntry {V : Type} (k : String) (v : V) (p : String × V) : String × V :=
  if p.1 = k then (k, v) else p

/-- Python dict assignment d[k] = v: replace the value of an existing key in
place, otherwise append the new binding at the end. -/
def dictInsert {V : Type} (d : List (String × V)) (k : String) (v : V) :
    List (String × V) :=
  if keyMem d k then d.map (setEntry k v)
  else d ++ [(k, v)]

/-- Python dict.update(d2) applied to d1: assign every binding of d2 in order. -/
def dictUpdate {V : Type} (d1 d2 : List (String × V)) : List (String × V) :=
  d2.foldl (fun acc p => dictInsert acc p.1 p.2) d1

/-- The recurring Python idiom `if d is not None: e.update(d)`: update e
with the dict when it is present, else leave e unchanged. -/
def dictUpdateOpt {V : Type} (e : List (String × V))
    (o : Option (List (String × V))) : List (String × V) :=
  match o with
  | some d => dictUpdate e d
  | none => e

/-- A dict has pairwise distinct keys (always true of real Python dicts). -/
def nodupKeys {V : Type} (d : List (String × V)) : Bool :=
  match d with
  | [] => true
  | (k0, _) :: rest => !keyMem rest k0 && nodupKeys rest

theorem keyMem_false_lookup {V : Type} (d : List (String × V)) (k : String)
    (h : keyMem d k = false) : dictLookup d k = none := by
  induction d with
  | nil => rfl
  | cons p rest ih =>
    obtain ⟨k0, v0⟩ := p
    simp only [keyMem, Bool.or_eq_false_iff, decide_eq_false_iff_not] at h
    simp only [dictLookup, if_neg h.1, ih h.2]

theorem lookup_false_keyMem {V : Type} (d : List (String × V)) (k : String)
    (h : dictLookup d k = none) : keyMem d k = false := by
  induction d with
  | nil => rfl
  | cons p rest ih =>
    obtain ⟨k0, v0⟩ := p
    by_cases hk : k0 = k
    · simp [dictLookup, hk] at h
    · simp only [dictLookup, if_neg hk] at h
      simp [keyMem, hk, ih h]

theorem dictLookup_append {V : Type} (d1 d2 : List (String × V)) (k : String) :
    dictLookup (d1 ++ d2) k = optOr (dictLookup d1 k) (dictLookup d2 k) := by
  induction d1 with
  | nil => rfl
  | cons p rest ih =>
    obtain ⟨k0, v0⟩ := p
    by_cases hk : k0 = k
    · simp [dictLookup, hk, optOr]
    · simp [dictLookup, hk, ih]

theorem setEntry_hit {V : Type} (k : String) (v : V) (k0 : String) (v0 : V)
    (h : k0 = k) : setEntry k v (k0, v0) = (k, v) := by
  unfold setEntry
  exact if_pos h

theorem setEntry_miss {V : Type} (k : String) (v : V) (k0 : String) (v0 : V)
    (h : ¬ k0 = k) : setEntry k v (k0, v0) = (k0, v0) := by
  unfold setEntry
  exact if_neg h

theorem dictLookup_map_set_ne {V : Type} (d : List (String × V)) (k k2 : String)
    (v : V) (hne : k ≠ k2) :
    dictLookup (d.map (setEntry k v)) k2 = dictLookup d k2 := by
  induction d with
  | nil => rfl
  | cons p rest ih =>
    obtain ⟨k0, v0⟩ := p
    rw [List.map_cons]
    by_cases hk : k0 = k
    · rw [setEntry_hit k v k0 v0 hk]
      have h0 : ¬ k0 = k2 := fun h => hne (hk ▸ h)
      show (if k = k2 then some v else dictLookup (rest.map (setEntry k v)) k2) = _
      rw [if_neg hne, ih]
      show _ = (if k0 = k2 then some v0 else dictLookup rest k2)
      rw [if_neg h0]
    · rw [setEntry_miss k v k0 v0 hk]
      show (if k0 = k2 then some v0 else dictLookup (rest.map (setEntry k v)) k2)
        = (if k0 = k2 then some v0 else dictLookup rest k2)
      rw [ih]

theorem dictLookup_map_set_mem {V : Type} (d : List (String × V)) (k : String)
    (v : V) (hmem : keyMem d k = true) :
    dictLookup (d.map (setEntry k v)) k = some v := by
  induction d with
  | nil => simp [keyMem] at hmem
  | cons p rest ih =>
    obtain ⟨k0, v0⟩ := p
    rw [List.map_cons]
    by_cases hk : k0 = k
    · rw [setEntry_hit k v k0 v0 hk]
      show (if k = k then some v else dictLookup (rest.map (setEntry k v)) k) = _
      rw [if_pos rfl]
    · rw [setEntry_miss k v k0 v0 hk]
      simp only [keyMem, Bool.or_eq_true, decide_eq_true_eq] at hmem
      rcases hmem with hmem | hmem
      · exact absurd hmem hk
      · show (if k0 = k then some v0 else dictLookup (rest.map (setEntry k v)) k) = _
        rw [if_neg hk, ih hmem]

/-- Lookup after a Python dict assignment. -/
theorem dictLookup_insert {V : Type} (d : List (String × V)) (k k2 : String)
    (v : V) :
    dictLookup (dictInsert d k v) k2 =
      if k = k2 then some v else dictLookup d k2 := by
  unfold dictInsert
  by_cases hmem : keyMem d k
  · rw [if_pos hmem]
    by_cases hk : k = k2
    · subst hk
      rw [dictLookup_map_set_mem d k v hmem, if_pos rfl]
    · rw [dictLookup_map_set_ne d k k2 v hk, if_neg hk]
  · have hm2 : keyMem d k = false := by
      cases h : keyMem d k
      · rfl
      · exact absurd h hmem
    rw [if_neg hmem, dictLookup_append]
    by_cases hk : k = k2
    · subst hk
      rw [keyMem_false_lookup d k hm2]
      show optOr none (if k = k then some v else none) = _
      rw [if_pos rfl]
      rfl
    · have hnone : dictLookup [(k, v)] k2 = none := by
        show (if k = k2 then some v else none) = none
        rw [if_neg hk]
      rw [hnone, if_neg hk]
      cases dictLookup d k2 <;> rfl

/-- A dict assignment never produces an empty dict. -/
theorem dictInsert_ne_nil {V : Type} (d : List (String × V)) (k : String)
    (v : V) : (dictInsert d k v).isEmpty = false := by
  unfold dictInsert
  by_cases hmem : keyMem d k
  · rw [if_pos hmem]
    cases d with
    | nil => simp [keyMem] at hmem
    | cons p rest => rfl
  · rw [if_neg hmem]
    cases d with
    | nil => rfl
    | cons p rest => rfl

/-- Updating with a duplicate-free dict: a key defined by the update source
takes its value from there, any other key keeps its old value. -/
theorem dictLookup_update {V : Type} (d1 d2 : List (String × V)) (k : String)
    (h : nodupKeys d2 = true) :
    dictLookup (dictUpdate d1 d2) k =
      optOr (dictLookup d2 k) (dictLookup d1 k) := by
  induction d2 generalizing d1 with
  | nil => rfl
  | cons p rest ih =>
    obtain ⟨k0, v0⟩ := p
    simp only [nodupKeys, Bool.and_eq_true, Bool.not_eq_true'] at h
    have step : dictUpdate d1 ((k0, v0) :: rest) =
        dictUpdate (dictInsert d1 k0 v0) rest := rfl
    rw [step, ih (dictInsert d1 k0 v0) h.2, dictLookup_insert]
    by_cases hk : k0 = k
    · rw [if_pos hk]
      have hrest : dictLookup rest k = none :=
        keyMem_false_lookup rest k (hk ▸ h.1)
      rw [hrest]
      show _ = optOr (if k0 = k then some v0 else dictLookup rest k) _
      rw [if_pos hk]
      rfl
    · rw [if_neg hk]
      show _ = optOr (if k0 = k then some v0 else dictLookup rest k) _
      rw [if_neg hk]

/-- Updating with a dict that does not define the key leaves it unchanged. -/
theorem dictLookup_update_notMem {V : Type} (d1 d2 : List (String × V))
    (k : String) (h : keyMem d2 k = false) :
    dictLookup (dictUpdate d1 d2) k = dictLookup d1 k := by
  induction d2 generalizing d1 with
  | nil => rfl
  | cons p rest ih =>
    obtain ⟨k0, v0⟩ := p
    simp only [keyMem, Bool.or_eq_false_iff, decide_eq_false_iff_not] at h
    have step : dictUpdate d1 ((k0, v0) :: rest) =
        dictUpdate (dictInsert d1 k0 v0) rest := rfl
    rw [step, ih (dictInsert d1 k0 v0) h.2, dictLookup_insert]
    simp [if_neg h.1]

/-- Workspace volume kinds (phidata.app.phidata_app.WorkspaceVolumeType, not
under src/; the two variants come from the decision table of the spec). -/
inductive WorkspaceVolumeType where
  | HostPath
  | EmptyDir
deriving DecidableEq

/-- The in-container path set computed by get_container_paths (the
ContainerPathContext of phidata.types.context, not under src/; fields are
the ones the builders read). -/
structure ContainerPathContext where
  scripts_dir : String := "/usr/local/server/scripts"
  storage_dir : String := "/usr/local/server/storage"
  meta_dir : String := "/usr/local/server/meta"
  products_dir : String := "/usr/local/server/products"
  notebooks_dir : String := "/usr/local/server/notebooks"
  workflows_dir : String := "/usr/local/server/workflows"
  workspace_root : String := "/usr/local/server/ws"
  workspace_parent : String := "/usr/local/server"
  workspace_config_dir : String := "/usr/local/server/ws/config"
  requirements_file : String := "/usr/local/server/ws/requirements.txt"
deriving DecidableEq

/-- Docker build context (phidata.docker.resource.group.DockerBuildContext). -/
structure DockerBuildContext where
  network : String
deriving DecidableEq

/-- K8s build context (phidata.k8s.resource.group.K8sBuildContext). -/
structure K8sBuildContext where
  namespace_name : String := "default"
  service_account_name : Option String := none
  labels : Option Labels := none
deriving DecidableEq

/-- AWS build context; the spec records that it carries nothing the AWS
builder reads. -/
structure AwsBuildContext where
deriving DecidableEq

/-- The runtime value handed to a builder as its build context: None, or one
of the three platform variants. -/
inductive BuildContext where
  | docker (ctx : DockerBuildContext)
  | k8s (ctx : K8sBuildContext)
  | aws (ctx : AwsBuildContext)
deriving DecidableEq

def isDockerCtx : Option BuildContext → Bool
  | some (.docker _) => true
  | _ => false

def isK8sCtx : Option BuildContext → Bool
  | some (.k8s _) => true
  | _ => false

/-- The value dict of one docker volume binding: bind path and mode. -/
structure VolumeBind where
  bind : String
  mode : String
deriving DecidableEq

/-- DockerContainer descriptor, with the fields get_docker_rg sets. -/
structure DockerContainer where
  name : String
  image : String
  entrypoint : Option StrOrList
  command : Option StrOrList
  detach : Bool
  auto_remove : Bool
  healthcheck : Option EnvMap
  hostname : Option String
  labels : Option Labels
  environment : EnvMap
  network : String
  platform : Option String
  ports : Option (List (String × Nat))
  remove : Bool
  restart_policy : Option EnvMap
  stdin_open : Bool
  tty : Bool
  user : Option StrOrNat
  volumes : Option (List (String × VolumeBind))
  working_dir : Option String
  use_cache : Bool
deriving DecidableEq

structure DockerNetwork where
  name : String
deriving DecidableEq

structure DockerResourceGroup where
  name : String
  enabled : Bool
  network : DockerNetwork
  containers : List DockerContainer
  images : Option (List String)
deriving DecidableEq

/-- CreateNamespace (phidata.k8s.create.group). -/
structure CreateNamespace where
  ns : String
  app_name : String
  labels : Option Labels := none
deriving DecidableEq

structure CreateServiceAccount where
  sa_name : String
  app_name : String
  sa_namespace : String
deriving DecidableEq

structure PolicyRule where
  api_groups : List String
  resources : List String
  verbs : List String
deriving DecidableEq

structure CreateClusterRole where
  cr_name : String
  rules : List PolicyRule
  app_name : String
  labels : Option Labels := none
deriving DecidableEq

structure CreateClusterRoleBinding where
  crb_name : String
  cr_name : String
  service_account_name : String
  app_name : String
  crb_namespace : String
  labels : Option Labels := none
deriving DecidableEq

structure CreateSecret where
  secret_name : String
  app_name : String
  string_data : EnvMap
  secret_namespace : String
  labels : Option Labels := none
deriving DecidableEq

structure CreateConfigMap where
  cm_name : String
  app_name : String
  cm_namespace : String
  data : EnvMap
  labels : Option Labels := none
deriving DecidableEq

inductive K8sVolumeType where
  | EMPTY_DIR
  | HOST_PATH
deriving DecidableEq

structure HostPathVolumeSource where
  path : String
deriving DecidableEq

structure CreateVolume where
  volume_name : String
  app_name : String
  mount_path : String
  volume_type : K8sVolumeType
  host_path : Option HostPathVolumeSource := none
deriving DecidableEq

structure CreatePort where
  port_name : String
  container_port : Nat
  service_port : Nat
  target_port : StrOrNat
deriving DecidableEq

structure CreateContainer where
  container_name : String
  app_name : String
  image_name : String
  image_tag : String
  container_args : Option (List String) := none
  command : Option (List String) := none
  image_pull_policy : Option String := none
  env : Option EnvMap := none
  envs_from_configmap : Option (List String) := none
  envs_from_secret : Option (List String) := none
  ports : Option (List CreatePort) := none
  volumes : Option (List CreateVolume) := none
  labels : Option Labels := none
deriving DecidableEq

structure CreateDeployment where
  deploy_name : String
  pod_name : String
  app_name : String
  deploy_namespace : String
  service_account_name : Option String
  replicas : Nat
  containers : List CreateContainer
  init_containers : Option (List CreateContainer)
  pod_node_selector : Option Labels
  restart_policy : String
  termination_grace_period_seconds : Option Nat
  volumes : Option (List CreateVolume)
  labels : Labels
  pod_annotations : Labels
  topology_spread_key : Option String
  topology_spread_max_skew : Option Nat
  topology_spread_when_unsatisfiable : Option String
deriving DecidableEq

structure CreateService where
  service_name : String
  app_name : String
  svc_namespace : String
  service_account_name : Option String
  service_type : Option String
  deployment : CreateDeployment
  ports : Option (List CreatePort)
  labels : Labels
deriving DecidableEq

/-- Caller-supplied extra resources that the builder only passes through;
modelled as opaque named objects. -/
structure CreatePersistentVolume where
  pv_name : String
deriving DecidableEq

structure CreatePVC where
  pvc_name : String
deriving DecidableEq

structure CreateStorageClass where
  sc_name : String
deriving DecidableEq

structure CreateCustomObject where
  co_name : String
deriving DecidableEq

structure CreateCustomResourceDefinition where
  crd_name : String
deriving DecidableEq

structure CreateK8sResourceGroup where
  name : String
  enabled : Bool
  ns : Option CreateNamespace
  sa : Option CreateServiceAccount
  cr : Option CreateClusterRole
  crb : Option CreateClusterRoleBinding
  secrets : Option (List CreateSecret)
  config_maps : Option (List CreateConfigMap)
  storage_classes : Option (List CreateStorageClass)
  services : Option (List CreateService)
  deployments : Option (List CreateDeployment)
  custom_objects : Option (List CreateCustomObject)
  crds : Option (List CreateCustomResourceDefinition)
  pvs : Option (List CreatePersistentVolume)
  pvcs : Option (List CreatePVC)
deriving DecidableEq

/-- ECS / ELB resource descriptors (phidata.aws.resource.group), with the
fields get_aws_rg sets. -/
structure EcsCluster where
  name : String
  ecs_cluster_name : String
  capacity_providers : List String
  skip_create : Bool
  skip_delete : Bool
  wait_for_creation : Bool
  wait_for_deletion : Bool
deriving DecidableEq

structure LoadBalancer where
  name : String
  subnets : Option (List String)
  security_groups : Option (List String)
  skip_create : Bool
  skip_delete : Bool
  wait_for_creation : Bool
  wait_for_deletion : Bool
deriving DecidableEq

structure TargetGroup where
  name : String
  port : Nat
  protocol : String
  vpc_id : String
  target_type : String
  skip_create : Bool
  skip_delete : Bool
  wait_for_creation : Bool
  wait_for_deletion : Bool
deriving DecidableEq

structure Listener where
  name : String
  protocol : String
  port : Nat
  load_balancer : LoadBalancer
  target_group : TargetGroup
  skip_create : Bool
  skip_delete : Bool
  wait_for_creation : Bool
  wait_for_deletion : Bool
deriving DecidableEq

structure LogConfiguration where
  logDriver : String
  options : Labels
deriving DecidableEq

structure EcsContainer where
  name : String
  image : String
  port_mappings : List (List (String × Nat))
  command : Option StrOrList
  environment : EnvMap
  log_configuration : LogConfiguration
  skip_create : Bool
  skip_delete : Bool
  wait_for_creation : Bool
  wait_for_deletion : Bool
deriving DecidableEq

structure EcsTaskDefinition where
  name : String
  family : String
  network_mode : String
  cpu : String
  memory : String
  containers : List EcsContainer
  requires_compatibilities : List String
  skip_create : Bool
  skip_delete : Bool
  wait_for_creation : Bool
  wait_for_deletion : Bool
deriving DecidableEq

structure AwsVpcConfig where
  subnets : Option (List String)
  securityGroups : Option (List String)
  assignPublicIp : Option String
deriving DecidableEq

structure EcsService where
  name : String
  desired_count : Nat
  launch_type : String
  cluster : EcsCluster
  task_definition : EcsTaskDefinition
  target_group : TargetGroup
  target_container_name : String
  target_container_port : Nat
  network_configuration : AwsVpcConfig
  force_delete : Bool
  force_new_deployment : Bool
  skip_create : Bool
  skip_delete : Bool
  wait_for_creation : Bool
  wait_for_deletion : Bool
deriving DecidableEq

structure AwsResourceGroup where
  name : String
  enabled : Bool
  ecs_clusters : List EcsCluster
  ecs_task_definitions : List EcsTaskDefinition
  ecs_services : List EcsService
  load_balancers : List LoadBalancer
  target_groups : List TargetGroup
  listeners : List Listener
deriving DecidableEq

/-- The ServerBase configuration (ServerBaseArgs), restricted to the fields
that the three builders read; option fields the builders never touch are
omitted.  The field named namespace in the source is namespace_arg here
because namespace is a Lean keyword. -/
structure ServerBaseArgs where
  name : String := "server"
  version : String := "1"
  enabled : Bool := true
  image : Option String := none
  image_name : String := "phidata/server"
  image_tag : String := "1.5.0"
  entrypoint : Option StrOrList := none
  command : Option StrOrList := none
  install_requirements : Bool := false
  container_name : Option String := none
  python_path : Option String := none
  add_python_path : Option String := none
  container_labels : Option Labels := none
  env : Option EnvMap := none
  secrets : Option EnvMap := none
  open_container_port : Bool := false
  container_port : Nat := 8080
  container_port_name : String := "http"
  container_host_port : Nat := 8080
  mount_workspace : Bool := false
  workspace_volume_name : Option String := none
  workspace_volume_type : Option WorkspaceVolumeType := none
  workspace_volume_host_path : Option String := none
  create_git_sync_sidecar : Bool := false
  create_git_sync_init_container : Bool := true
  git_sync_image_name : String := "k8s.gcr.io/git-sync"
  git_sync_image_tag : String := "v3.1.1"
  git_sync_repo : Option String := none
  git_sync_branch : Option String := none
  git_sync_wait : Option Nat := some 1
  container_detach : Bool := true
  container_auto_remove : Bool := true
  container_remove : Bool := true
  container_user : Option StrOrNat := none
  container_stdin_open : Bool := true
  container_tty : Bool := true
  container_healthcheck : Option EnvMap := none
  container_hostname : Option String := none
  container_platform : Option String := none
  container_working_dir : Option String := none
  container_volumes_docker : Option (List (String × VolumeBind)) := none
  container_ports_docker : Option (List (String × Nat)) := none
  replicas : Nat := 1
  secret_name : Option String := none
  configmap_name : Option String := none
  image_pull_policy : Option String := none
  pod_annotations : Option Labels := none
  pod_node_selector : Option Labels := none
  deploy_restart_policy : Option String := none
  deploy_labels : Option Labels := none
  termination_grace_period_seconds : Option Nat := none
  topology_spread_key : Option String := none
  topology_spread_max_skew : Option Nat := none
  topology_spread_when_unsatisfiable : Option String := none
  create_service : Bool := false
  service_type : Option String := none
  service_port : Nat := 8000
  service_target_port : Option StrOrNat := none
  service_labels : Option Labels := none
  use_rbac : Bool := false
  ns_name : Option String := none
  namespace_arg : Option CreateNamespace := none
  sa_name : Option String := none
  service_account : Option CreateServiceAccount := none
  cr_name : Option String := none
  cluster_role : Option CreateClusterRole := none
  crb_name : Option String := none
  cluster_role_binding : Option CreateClusterRoleBinding := none
  extra_secrets : Option (List CreateSecret) := none
  extra_configmaps : Option (List CreateConfigMap) := none
  extra_services : Option (List CreateService) := none
  extra_deployments : Option (List CreateDeployment) := none
  extra_pvs : Option (List CreatePersistentVolume) := none
  extra_pvcs : Option (List CreatePVC) := none
  extra_containers : Option (List CreateContainer) := none
  extra_init_containers : Option (List CreateContainer) := none
  extra_ports : Option (List CreatePort) := none
  extra_volumes : Option (List CreateVolume) := none
  extra_storage_classes : Option (List CreateStorageClass) := none
  extra_custom_objects : Option (List CreateCustomObject) := none
  extra_crds : Option (List CreateCustomResourceDefinition) := none
  ecs_cluster : Option EcsCluster := none
  ecs_launch_type : String := "FARGATE"
  ecs_task_cpu : String := "256"
  ecs_task_memory : String := "512"
  ecs_service_count : Nat := 1
  assign_public_ip : Bool := true
  elb : Option LoadBalancer := none
  aws_subnets : Option (List String) := none
  aws_security_groups : Option (List String) := none
  print_env_on_load : Bool := false
  skip_create : Bool := false
  skip_delete : Bool := false
  wait_for_creation : Bool := true
  wait_for_deletion : Bool := true
  use_cache : Bool := true
deriving DecidableEq

/-- Modelled from the spec: state and helper methods that ServerBase inherits
from PhidataApp (phidata.app.phidata_app, not under src/).  Each field is
the value one base-class method or property returns during the build:
workspace_root_path and workspace_name (its stem), get_container_paths with
and without the workspace-name suffix, the AWS env vars that
set_aws_env_vars injects, get_env_data and get_secret_data, the resolved
resource names, get_container_port, get_image_str, the docker restart
policy, get_default_volume_name, Subnet.get_vpc_id, aws_region and the
enabled property. -/
structure PhidataAppCtx where
  workspace_root_path : Option String := none
  workspace_name : String := "ws"
  container_paths : Option ContainerPathContext := none
  container_paths_aws : Option ContainerPathContext := none
  aws_env : EnvMap := []
  env_file_data : Option EnvMap := none
  secret_data : Option EnvMap := none
  container_name_resolved : String := "server-container"
  image_str : String := "phidata/server:1.5.0"
  restart_policy_docker : Option EnvMap := none
  sa_name_default : String := "server-sa"
  cr_name_default : String := "server-cr"
  crb_name_default : String := "server-crb"
  configmap_name_default : String := "server-cm"
  secret_name_default : String := "server-secret"
  deploy_name_resolved : String := "server-deploy"
  pod_name_resolved : String := "server-pod"
  service_name_resolved : String := "server-svc"
  container_port_resolved : Nat := 8080
  default_volume_name : String → String := fun s => s
  vpc_of_subnet : String → String := fun _ => "vpc"
  aws_region : String := "us-east-1"
  self_enabled : Bool := true

/-- Env-var names imported from phidata.constants (not under src/); the
builders only pass them through, so representative values are used. -/
def PYTHONPATH_ENV_VAR : String := "PYTHONPATH"

def PHIDATA_RUNTIME_ENV_VAR : String := "PHIDATA_RUNTIME"

def SCRIPTS_DIR_ENV_VAR : String := "PHI_SCRIPTS_DIR"

def STORAGE_DIR_ENV_VAR : String := "PHI_STORAGE_DIR"

def META_DIR_ENV_VAR : String := "PHI_META_DIR"

def PRODUCTS_DIR_ENV_VAR : String := "PHI_PRODUCTS_DIR"

def NOTEBOOKS_DIR_ENV_VAR : String := "PHI_NOTEBOOKS_DIR"

def WORKFLOWS_DIR_ENV_VAR : String := "PHI_WORKFLOWS_DIR"

def WORKSPACE_ROOT_ENV_VAR : String := "PHI_WORKSPACE_ROOT"

def WORKSPACES_MOUNT_ENV_VAR : String := "PHI_WORKSPACES_MOUNT"

def WORKSPACE_CONFIG_DIR_ENV_VAR : String := "PHI_WORKSPACE_CONFIG_DIR"

/-- The container PYTHONPATH: the explicit python_path if given, else the
workspace root, with add_python_path appended after a colon when truthy. -/
def resolved_python_path (cfg : ServerBaseArgs) (cp : ContainerPathContext) :
    String :=
  match cfg.python_path with
  | some p => p
  | none =>
    cp.workspace_root ++
      (match cfg.add_python_path with
       | some a => if a.isEmpty then "" else ":" ++ a
       | none => "")

/-- The static base env dict built literally by each builder: optional
PYTHONPATH, the runtime marker, the path variables, and the four flag
variables, in source order. -/
def baseContainerEnv (runtime : String) (python_path : Option String)
    (cfg : ServerBaseArgs) (cp : ContainerPathContext) : EnvMap :=
  (match python_path with
   | some p => [(PYTHONPATH_ENV_VAR, PyVal.str p)]
   | none => []) ++
  [(PHIDATA_RUNTIME_ENV_VAR, PyVal.str runtime),
   (SCRIPTS_DIR_ENV_VAR, PyVal.str cp.scripts_dir),
   (STORAGE_DIR_ENV_VAR, PyVal.str cp.storage_dir),
   (META_DIR_ENV_VAR, PyVal.str cp.meta_dir),
   (PRODUCTS_DIR_ENV_VAR, PyVal.str cp.products_dir),
   (NOTEBOOKS_DIR_ENV_VAR, PyVal.str cp.notebooks_dir),
   (WORKFLOWS_DIR_ENV_VAR, PyVal.str cp.workflows_dir),
   (WORKSPACE_ROOT_ENV_VAR, PyVal.str cp.workspace_root),
   (WORKSPACES_MOUNT_ENV_VAR, PyVal.str cp.workspace_parent),
   (WORKSPACE_CONFIG_DIR_ENV_VAR, PyVal.str cp.workspace_config_dir),
   ("INSTALL_REQUIREMENTS", PyVal.str (pyStr cfg.install_requirements)),
   ("REQUIREMENTS_FILE_PATH", PyVal.str cp.requirements_file),
   ("MOUNT_WORKSPACE", PyVal.str (pyStr cfg.mount_workspace)),
   ("PRINT_ENV_ON_LOAD", PyVal.str (pyStr cfg.print_env_on_load))]

/-- Modelled from the spec: set_aws_env_vars (PhidataApp, not under src/)
updates the env dict with the AWS-derived variables (profile and region
when configured), overwriting keys it defines. -/
def set_aws_env_vars (ext : PhidataAppCtx) (e : EnvMap) : EnvMap :=
  dictUpdate e ext.aws_env

/-- Modelled from the spec: set_container_env (PhidataApp, not under src/)
updates the env dict with, in order: variables loaded from the env file,
variables loaded from the secrets file or store, the inline env map, the
inline secrets map; each later source overwrites keys it also defines. -/
def set_container_env (cfg : ServerBaseArgs) (ext : PhidataAppCtx)
    (e : EnvMap) : EnvMap :=
  dictUpdateOpt
    (dictUpdateOpt
      (dictUpdateOpt (dictUpdateOpt e ext.env_file_data) ext.secret_data)
      cfg.env)
    cfg.secrets

/-- The docker container env: base env, then set_aws_env_vars, then
set_container_env. -/
def dockerContainerEnvMap (cfg : ServerBaseArgs) (ext : PhidataAppCtx)
    (cp : ContainerPathContext) : EnvMap :=
  set_container_env cfg ext (set_aws_env_vars ext
    (baseContainerEnv ("docker") (some (resolved_python_path cfg cp)) cfg cp))

/-- The docker volumes dict: the caller dict, plus the workspace mount when
mount_workspace is set (host bind for HostPath or unset, named volume for
EmptyDir). -/
def dockerVolumes (cfg : ServerBaseArgs) (ext : PhidataAppCtx)
    (wsroot : String) (cp : ContainerPathContext) :
    List (String × VolumeBind) :=
  let container_volumes := cfg.container_volumes_docker.getD []
  if cfg.mount_workspace then
    match cfg.workspace_volume_type with
    | none | some .HostPath =>
      dictInsert container_volumes (pyOrD cfg.workspace_volume_host_path wsroot)
        { bind := cp.workspace_root, mode := "rw" }
    | some .EmptyDir =>
      let workspace_volume_name := match cfg.workspace_volume_name with
        | some n => n
        | none => ext.default_volume_name ("spark-" ++ ext.workspace_name ++ "-ws")
      dictInsert container_volumes workspace_volume_name
        { bind := cp.workspace_root, mode := "rw" }
  else container_volumes

/-- The docker port map: the caller dict, plus the convenience binding
str(container_port) to container_host_port when open_container_port. -/
def dockerPorts (cfg : ServerBaseArgs) : List (String × Nat) :=
  let container_ports := cfg.container_ports_docker.getD []
  if cfg.open_container_port then
    dictInsert container_ports (toString cfg.container_port)
      cfg.container_host_port
  else container_ports

/-- The DockerResourceGroup built once the context and path checks pass. -/
def dockerGroup (cfg : ServerBaseArgs) (ext : PhidataAppCtx)
    (dctx : DockerBuildContext) (wsroot : String)
    (cp : ContainerPathContext) : DockerResourceGroup :=
  let docker_container : DockerContainer :=
    { name := ext.container_name_resolved,
      image := ext.image_str,
      entrypoint := cfg.entrypoint,
      command := cfg.command,
      detach := cfg.container_detach,
      auto_remove := cfg.container_auto_remove,
      healthcheck := cfg.container_healthcheck,
      hostname := cfg.container_hostname,
      labels := cfg.container_labels,
      environment := dockerContainerEnvMap cfg ext cp,
      network := dctx.network,
      platform := cfg.container_platform,
      ports := listOpt (dockerPorts cfg),
      remove := cfg.container_remove,
      restart_policy := ext.restart_policy_docker,
      stdin_open := cfg.container_stdin_open,
      tty := cfg.container_tty,
      user := cfg.container_user,
      volumes := listOpt (dockerVolumes cfg ext wsroot cp),
      working_dir := cfg.container_working_dir,
      use_cache := cfg.use_cache }
  { name := cfg.name,
    enabled := cfg.enabled,
    network := { name := dctx.network },
    containers := [docker_container],
    images := match cfg.image with
      | some i => if i.isEmpty then none else some [i]
      | none => none }

/-- Result of get_docker_rg together with the post-call contents of the two
caller dicts the builder aliases: a caller-supplied non-empty dict is the
very object the builder writes into, an absent or empty value makes the
builder work on a fresh dict (Python `x or { }` truthiness). -/
structure DockerBuildOut where
  result : BuildResult DockerResourceGroup
  final_ports : Option (List (String × Nat))
  final_volumes : Option (List (String × VolumeBind))
deriving DecidableEq

/-- ServerBase.get_docker_rg.  Returns None when the context is not a
DockerBuildContext, the workspace root is unset, or the container paths do
not resolve; otherwise builds the group.  The unsupported-volume-type
branch of the source cannot fire because WorkspaceVolumeType has exactly
the HostPath and EmptyDir members. -/
def get_docker_rg (cfg : ServerBaseArgs) (ext : PhidataAppCtx)
    (docker_build_context : Option BuildContext) : DockerBuildOut :=
  let unchanged : BuildResult DockerResourceGroup → DockerBuildOut := fun r =>
    { result := r,
      final_ports := cfg.container_ports_docker,
      final_volumes := cfg.container_volumes_docker }
  match docker_build_context with
  | some (.docker dctx) =>
    match ext.workspace_root_path with
    | none => unchanged .absent
    | some wsroot =>
      match ext.container_paths with
      | none => unchanged .absent
      | some cp =>
        { result := .built (dockerGroup cfg ext dctx wsroot cp),
          final_ports :=
            if pyTruthy cfg.container_ports_docker then some (dockerPorts cfg)
            else cfg.container_ports_docker,
          final_volumes :=
            if pyTruthy cfg.container_volumes_docker then
              some (dockerVolumes cfg ext wsroot cp)
            else cfg.container_volumes_docker }
  | _ => unchanged .absent

/-- The RBAC objects and common names resolved at the top of get_k8s_rg:
ns_name and sa_name fall back to the build context (Python `or`), and when
use_rbac is set missing namespace, service account, cluster role and
cluster role binding objects are created with default names. -/
structure K8sRbacOut where
  ns : Option CreateNamespace
  sa : Option CreateServiceAccount
  cr : Option CreateClusterRole
  crb : Option CreateClusterRoleBinding
  ns_name : String
  sa_name : Option String
deriving DecidableEq

def k8sRbacResolve (cfg : ServerBaseArgs) (ext : PhidataAppCtx)
    (bctx : K8sBuildContext) : K8sRbacOut :=
  let ns_name := pyOrD cfg.ns_name bctx.namespace_name
  let sa_name := pyOrOpt cfg.sa_name bctx.service_account_name
  let common_labels := bctx.labels
  if cfg.use_rbac then
    let ns := match cfg.namespace_arg with
      | some n => n
      | none => { ns := ns_name, app_name := cfg.name, labels := common_labels }
    let ns_name := ns.ns
    let sa := match cfg.service_account with
      | some s => s
      | none =>
        { sa_name := pyOrD sa_name ext.sa_name_default,
          app_name := cfg.name, sa_namespace := ns_name }
    let cr := match cfg.cluster_role with
      | some c => c
      | none =>
        { cr_name := pyOrD cfg.cr_name ext.cr_name_default,
          rules := [
            { api_groups := [""],
              resources := ["pods", "secrets", "configmaps"],
              verbs := ["get", "list", "watch", "create", "update", "patch",
                        "delete"] },
            { api_groups := [""],
              resources := ["pods/logs"],
              verbs := ["get", "list"] }],
          app_name := cfg.name, labels := common_labels }
    let crb := match cfg.cluster_role_binding with
      | some c => c
      | none =>
        { crb_name := pyOrD cfg.crb_name ext.crb_name_default,
          cr_name := cr.cr_name,
          service_account_name := sa.sa_name,
          app_name := cfg.name,
          crb_namespace := ns_name,
          labels := common_labels }
    { ns := some ns, sa := some sa, cr := some cr, crb := some crb,
      ns_name := ns_name, sa_name := some sa.sa_name }
  else
    { ns := cfg.namespace_arg, sa := cfg.service_account,
      cr := cfg.cluster_role, crb := cfg.cluster_role_binding,
      ns_name := ns_name, sa_name := sa_name }

/-- The env dict stored in the generated ConfigMap: base env, then
set_aws_env_vars, then the env-file data, then the inline env map. -/
def k8sContainerEnvMap (cfg : ServerBaseArgs) (ext : PhidataAppCtx)
    (cp : ContainerPathContext) : EnvMap :=
  dictUpdateOpt
    (dictUpdateOpt
      (set_aws_env_vars ext (baseContainerEnv ("kubernetes")
        (some (resolved_python_path cfg cp)) cfg cp))
      ext.env_file_data)
    cfg.env

/-- The generated env ConfigMap. -/
def k8sEnvConfigMap (cfg : ServerBaseArgs) (ext : PhidataAppCtx)
    (bctx : K8sBuildContext) (cp : ContainerPathContext) : CreateConfigMap :=
  { cm_name := pyOrD cfg.configmap_name ext.configmap_name_default,
    app_name := cfg.name,
    cm_namespace := (k8sRbacResolve cfg ext bctx).ns_name,
    data := k8sContainerEnvMap cfg ext cp,
    labels := bctx.labels }

/-- The config_maps list: caller extras with the generated env ConfigMap
appended. -/
def k8sConfigMaps (cfg : ServerBaseArgs) (ext : PhidataAppCtx)
    (bctx : K8sBuildContext) (cp : ContainerPathContext) :
    List CreateConfigMap :=
  cfg.extra_configmaps.getD [] ++ [k8sEnvConfigMap cfg ext bctx cp]

/-- The secrets list: caller extras, with a generated env Secret appended
when get_secret_data returns data. -/
def k8sSecrets (cfg : ServerBaseArgs) (ext : PhidataAppCtx)
    (bctx : K8sBuildContext) : List CreateSecret :=
  match ext.secret_data with
  | some sd =>
    cfg.extra_secrets.getD [] ++
      [{ secret_name := pyOrD cfg.secret_name ext.secret_name_default,
         app_name := cfg.name,
         string_data := sd,
         secret_namespace := (k8sRbacResolve cfg ext bctx).ns_name,
         labels := bctx.labels }]
  | none => cfg.extra_secrets.getD []

/-- The volume, sidecar-container and init-container lists produced by the
workspace-volume section of get_k8s_rg.  With git_sync_repo unset the
source logs GIT_SYNC_REPO invalid and continues without appending any
git-sync container. -/
structure K8sWorkload where
  volumes : List CreateVolume
  containers : List CreateContainer
  init_containers : List CreateContainer
deriving DecidableEq

def k8sWorkload (cfg : ServerBaseArgs) (ext : PhidataAppCtx)
    (bctx : K8sBuildContext) (wsroot : String) (cp : ContainerPathContext) :
    K8sWorkload :=
  let volumes0 := cfg.extra_volumes.getD []
  let containers0 := cfg.extra_containers.getD []
  let init0 := cfg.extra_init_containers.getD []
  let config_maps := k8sConfigMaps cfg ext bctx cp
  let secrets := k8sSecrets cfg ext bctx
  if cfg.mount_workspace then
    let workspace_volume_name := match cfg.workspace_volume_name with
      | some n => n
      | none => ext.default_volume_name ("spark-" ++ ext.workspace_name ++ "-ws")
    match cfg.workspace_volume_type with
    | none | some .EmptyDir =>
      let workspace_volume : CreateVolume :=
        { volume_name := workspace_volume_name, app_name := cfg.name,
          mount_path := cp.workspace_parent, volume_type := .EMPTY_DIR }
      let volumes1 := volumes0 ++ [workspace_volume]
      if cfg.create_git_sync_sidecar then
        match cfg.git_sync_repo with
        | some repo =>
          let git_sync_env : EnvMap :=
            [("GIT_SYNC_REPO", PyVal.str repo),
             ("GIT_SYNC_ROOT", PyVal.str cp.workspace_parent),
             ("GIT_SYNC_DEST", PyVal.str ext.workspace_name)]
          let git_sync_env := match cfg.git_sync_branch with
            | some b => dictInsert git_sync_env ("GIT_SYNC_BRANCH") (PyVal.str b)
            | none => git_sync_env
          let git_sync_env := match cfg.git_sync_wait with
            | some w =>
              dictInsert git_sync_env ("GIT_SYNC_WAIT") (PyVal.str (toString w))
            | none => git_sync_env
          let git_sync_container : CreateContainer :=
            { container_name := "git-sync",
              app_name := cfg.name,
              image_name := cfg.git_sync_image_name,
              image_tag := cfg.git_sync_image_tag,
              env := some git_sync_env,
              envs_from_configmap :=
                if config_maps.isEmpty then none
                else some (config_maps.map (fun cm => cm.cm_name)),
              envs_from_secret :=
                if secrets.isEmpty then none
                else some (secrets.map (fun s => s.secret_name)),
              volumes := some [workspace_volume] }
          let containers1 := containers0 ++ [git_sync_container]
          let init1 :=
            if cfg.create_git_sync_init_container then
              let git_sync_init_env :=
                dictUpdate [("GIT_SYNC_ONE_TIME", PyVal.bool true)] git_sync_env
              init0 ++
                [{ container_name := "git-sync-init",
                   app_name := git_sync_container.app_name,
                   image_name := git_sync_container.image_name,
                   image_tag := git_sync_container.image_tag,
                   env := some git_sync_init_env,
                   envs_from_configmap := git_sync_container.envs_from_configmap,
                   envs_from_secret := git_sync_container.envs_from_secret,
                   volumes := git_sync_container.volumes }]
            else init0
          { volumes := volumes1, containers := containers1,
            init_containers := init1 }
        | none =>
          { volumes := volumes1, containers := containers0,
            init_containers := init0 }
      else
        { volumes := volumes1, containers := containers0,
          init_containers := init0 }
    | some .HostPath =>
      let workspace_volume : CreateVolume :=
        { volume_name := workspace_volume_name, app_name := cfg.name,
          mount_path := cp.workspace_root, volume_type := .HOST_PATH,
          host_path := some { path := wsroot } }
      { volumes := volumes0 ++ [workspace_volume], containers := containers0,
        init_containers := init0 }
  else
    { volumes := volumes0, containers := containers0, init_containers := init0 }

/-- Python `a or b` for the K8s target port: a falsy service_target_port
(absent, empty string, or zero) falls back to the container port name. -/
def pyOrTargetPort (a : Option StrOrNat) (b : String) : StrOrNat :=
  match a with
  | some (.s v) => if v.isEmpty then .s b else .s v
  | some (.n v) => if v == 0 then .s b else .n v
  | none => .s b

/-- The ports list: caller extras, plus the convenience port when
open_container_port. -/
def k8sPortsList (cfg : ServerBaseArgs) : List CreatePort :=
  if cfg.open_container_port then
    cfg.extra_ports.getD [] ++
      [{ port_name := cfg.container_port_name,
         container_port := cfg.container_port,
         service_port := cfg.service_port,
         target_port := pyOrTargetPort cfg.service_target_port
           cfg.container_port_name }]
  else cfg.extra_ports.getD []

/-- Python `command if isinstance(command, str) is false else [command]`. -/
def toListArg : Option StrOrList → Option (List String)
  | some (.str s) => some [s]
  | some (.list l) => some l
  | none => none

/-- The primary application container. -/
def k8sSparkContainer (cfg : ServerBaseArgs) (ext : PhidataAppCtx)
    (bctx : K8sBuildContext) (wsroot : String) (cp : ContainerPathContext) :
    CreateContainer :=
  let config_maps := k8sConfigMaps cfg ext bctx cp
  let secrets := k8sSecrets cfg ext bctx
  let workload := k8sWorkload cfg ext bctx wsroot cp
  let container_labels :=
    match cfg.container_labels with
    | some d => dictUpdate (bctx.labels.getD []) d
    | none => bctx.labels.getD []
  { container_name := ext.container_name_resolved,
    app_name := cfg.name,
    image_name := cfg.image_name,
    image_tag := cfg.image_tag,
    container_args := toListArg cfg.command,
    command := toListArg cfg.entrypoint,
    image_pull_policy := some (pyOrD cfg.image_pull_policy ("IfNotPresent")),
    envs_from_configmap :=
      if config_maps.isEmpty then none
      else some (config_maps.map (fun cm => cm.cm_name)),
    envs_from_secret :=
      if secrets.isEmpty then none
      else some (secrets.map (fun s => s.secret_name)),
    ports := listOpt (k8sPortsList cfg),
    volumes := listOpt workload.volumes,
    labels := some container_labels }

/-- The pod annotations dict: the default-container annotation pointing at
the primary container, then updated with the caller pod_annotations. -/
def k8sPodAnnotationsMap (cfg : ServerBaseArgs) (ext : PhidataAppCtx) :
    Labels :=
  dictUpdateOpt
    [("kubectl.kubernetes.io/default-container", ext.container_name_resolved)]
    cfg.pod_annotations

/-- The generated Deployment. -/
def k8sDeploymentRes (cfg : ServerBaseArgs) (ext : PhidataAppCtx)
    (bctx : K8sBuildContext) (wsroot : String) (cp : ContainerPathContext) :
    CreateDeployment :=
  let rbac := k8sRbacResolve cfg ext bctx
  let workload := k8sWorkload cfg ext bctx wsroot cp
  let deploy_labels :=
    match cfg.deploy_labels with
    | some d => dictUpdate (bctx.labels.getD []) d
    | none => bctx.labels.getD []
  { deploy_name := ext.deploy_name_resolved,
    pod_name := ext.pod_name_resolved,
    app_name := cfg.name,
    deploy_namespace := rbac.ns_name,
    service_account_name := rbac.sa_name,
    replicas := cfg.replicas,
    containers := k8sSparkContainer cfg ext bctx wsroot cp :: workload.containers,
    init_containers := listOpt workload.init_containers,
    pod_node_selector := cfg.pod_node_selector,
    restart_policy := pyOrD cfg.deploy_restart_policy ("Always"),
    termination_grace_period_seconds := cfg.termination_grace_period_seconds,
    volumes := listOpt workload.volumes,
    labels := deploy_labels,
    pod_annotations := k8sPodAnnotationsMap cfg ext,
    topology_spread_key := cfg.topology_spread_key,
    topology_spread_max_skew := cfg.topology_spread_max_skew,
    topology_spread_when_unsatisfiable :=
      cfg.topology_spread_when_unsatisfiable }

/-- The services list: caller extras, with a generated Service referencing
the Deployment appended when create_service. -/
def k8sServicesList (cfg : ServerBaseArgs) (ext : PhidataAppCtx)
    (bctx : K8sBuildContext) (wsroot : String) (cp : ContainerPathContext) :
    List CreateService :=
  if cfg.create_service then
    let rbac := k8sRbacResolve cfg ext bctx
    let service_labels :=
      match cfg.service_labels with
      | some d => dictUpdate (bctx.labels.getD []) d
      | none => bctx.labels.getD []
    cfg.extra_services.getD [] ++
      [{ service_name := ext.service_name_resolved,
         app_name := cfg.name,
         svc_namespace := rbac.ns_name,
         service_account_name := rbac.sa_name,
         service_type := cfg.service_type,
         deployment := k8sDeploymentRes cfg ext bctx wsroot cp,
         ports := listOpt (k8sPortsList cfg),
         labels := service_labels }]
  else cfg.extra_services.getD []

/-- The whole CreateK8sResourceGroup built once the context and path checks
pass. -/
def k8sGroup (cfg : ServerBaseArgs) (ext : PhidataAppCtx)
    (bctx : K8sBuildContext) (wsroot : String) (cp : ContainerPathContext) :
    CreateK8sResourceGroup :=
  let rbac := k8sRbacResolve cfg ext bctx
  { name := cfg.name,
    enabled := cfg.enabled,
    ns := rbac.ns,
    sa := rbac.sa,
    cr := rbac.cr,
    crb := rbac.crb,
    secrets := listOpt (k8sSecrets cfg ext bctx),
    config_maps := listOpt (k8sConfigMaps cfg ext bctx cp),
    storage_classes := listOpt (cfg.extra_storage_classes.getD []),
    services := listOpt (k8sServicesList cfg ext bctx wsroot cp),
    deployments := listOpt (cfg.extra_deployments.getD [] ++
      [k8sDeploymentRes cfg ext bctx wsroot cp]),
    custom_objects := listOpt (cfg.extra_custom_objects.getD []),
    crds := listOpt (cfg.extra_crds.getD []),
    pvs := listOpt (cfg.extra_pvs.getD []),
    pvcs := listOpt (cfg.extra_pvcs.getD []) }

/-- ServerBase.get_k8s_rg.  Returns None when the context is not a
K8sBuildContext, the workspace root is unset, or the container paths do
not resolve; otherwise builds and returns the resource group.  The final
call on the group, CreateK8sResourceGroup.create, is not under src/; it is
modelled from the spec, which states the builder returns the constructed
graph in materialized form. -/
def get_k8s_rg (cfg : ServerBaseArgs) (ext : PhidataAppCtx)
    (k8s_build_context : Option BuildContext) :
    BuildResult CreateK8sResourceGroup :=
  match k8s_build_context with
  | some (.k8s bctx) =>
    match ext.workspace_root_path with
    | none => .absent
    | some wsroot =>
      match ext.container_paths with
      | none => .absent
      | some cp => .built (k8sGroup cfg ext bctx wsroot cp)
  | _ => .absent

/-- Post-call contents of the caller-supplied extra_* lists of get_k8s_rg.
The source binds each working list with `self.args.extra_X or []`, so a
caller-supplied non-empty list is the very object the builder then appends
to (and, for extra_containers, inserts the primary container into); an
absent or empty value gives the builder a fresh list and the field is left
untouched, as it is when the context or path checks fail before the lists
are bound. -/
structure K8sExtrasOut where
  final_extra_secrets : Option (List CreateSecret)
  final_extra_configmaps : Option (List CreateConfigMap)
  final_extra_services : Option (List CreateService)
  final_extra_deployments : Option (List CreateDeployment)
  final_extra_containers : Option (List CreateContainer)
  final_extra_ports : Option (List CreatePort)
  final_extra_volumes : Option (List CreateVolume)
deriving DecidableEq

def k8sFinalExtras (cfg : ServerBaseArgs) (ext : PhidataAppCtx)
    (k8s_build_context : Option BuildContext) : K8sExtrasOut :=
  let unchanged : K8sExtrasOut :=
    { final_extra_secrets := cfg.extra_secrets,
      final_extra_configmaps := cfg.extra_configmaps,
      final_extra_services := cfg.extra_services,
      final_extra_deployments := cfg.extra_deployments,
      final_extra_containers := cfg.extra_containers,
      final_extra_ports := cfg.extra_ports,
      final_extra_volumes := cfg.extra_volumes }
  match k8s_build_context with
  | some (.k8s bctx) =>
    match ext.workspace_root_path with
    | none => unchanged
    | some wsroot =>
      match ext.container_paths with
      | none => unchanged
      | some cp =>
        { final_extra_secrets :=
            if pyTruthy cfg.extra_secrets then some (k8sSecrets cfg ext bctx)
            else cfg.extra_secrets,
          final_extra_configmaps :=
            if pyTruthy cfg.extra_configmaps then
              some (k8sConfigMaps cfg ext bctx cp)
            else cfg.extra_configmaps,
          final_extra_services :=
            if pyTruthy cfg.extra_services then
              some (k8sServicesList cfg ext bctx wsroot cp)
            else cfg.extra_services,
          final_extra_deployments :=
            if pyTruthy cfg.extra_deployments then
              some (cfg.extra_deployments.getD [] ++
                [k8sDeploymentRes cfg ext bctx wsroot cp])
            else cfg.extra_deployments,
          final_extra_containers :=
            if pyTruthy cfg.extra_containers then
              some (k8sSparkContainer cfg ext bctx wsroot cp ::
                (k8sWorkload cfg ext bctx wsroot cp).containers)
            else cfg.extra_containers,
          final_extra_ports :=
            if pyTruthy cfg.extra_ports then some (k8sPortsList cfg)
            else cfg.extra_ports,
          final_extra_volumes :=
            if pyTruthy cfg.extra_volumes then
              some ((k8sWorkload cfg ext bctx wsroot cp).volumes)
            else cfg.extra_volumes }
  | _ => unchanged

/-- Post-call AppConfig of get_aws_rg.  Lines 1142-1279 of the source only
construct fresh objects: aws_subnets and aws_security_groups are passed by
reference into the LoadBalancer and the awsvpcConfiguration dict but never
assigned into, no extra_* list is read, and no args field is reassigned, so
the AppConfig is unchanged on every path of the AWS builder. -/
def awsFinalConfig (cfg : ServerBaseArgs) (ext : PhidataAppCtx)
    (aws_build_context : Option BuildContext) : ServerBaseArgs := cfg

/-- Python set.add on a set modelled as a duplicate-free list. -/
def setAdd (s : List String) (v : String) : List String :=
  if v ∈ s then s else s ++ [v]

/-- The body of the subnet loop of get_aws_rg: add each subnet VPC to the
set and raise ValueError as soon as the set holds more than one id. -/
def subnetVpcFold (vpcOf : String → String) (acc : List String) :
    List String → Except PyError (List String)
  | [] => .ok acc
  | s :: rest =>
    let acc2 := setAdd acc (vpcOf s)
    if acc2.length ≠ 1 then
      .error (.valueError ("Subnets must be in the same VPC"))
    else subnetVpcFold vpcOf acc2 rest

/-- The VPC-id resolution of get_aws_rg: iterating aws_subnets (TypeError
when it is None), then popping the single id from the set (KeyError when
the set is empty, that is when aws_subnets is an empty list). -/
def getVpcId (vpcOf : String → String) :
    Option (List String) → Except PyError String
  | none => .error (.typeError ("NoneType is not iterable"))
  | some subnets =>
    match subnetVpcFold vpcOf [] subnets with
    | .error e => .error e
    | .ok [] => .error (.keyError ("pop from an empty set"))
    | .ok (v :: _) => .ok v

/-- The fixed ECS log configuration of the container built by get_aws_rg. -/
def awsLogConfiguration (cfg : ServerBaseArgs) (ext : PhidataAppCtx) :
    LogConfiguration :=
  { logDriver := "awslogs",
    options := [("awslogs-group", cfg.name),
                ("awslogs-region", ext.aws_region),
                ("awslogs-create-group", "true"),
                ("awslogs-stream-prefix", cfg.name)] }

/-- The ECS container env: base env without PYTHONPATH and with runtime
marker ecs, then set_aws_env_vars, then set_container_env. -/
def awsContainerEnvMap (cfg : ServerBaseArgs) (ext : PhidataAppCtx)
    (cp : ContainerPathContext) : EnvMap :=
  set_container_env cfg ext (set_aws_env_vars ext
    (baseContainerEnv ("ecs") none cfg cp))

/-- The AwsResourceGroup built once the path checks pass and the VPC id has
been resolved. -/
def awsGroup (cfg : ServerBaseArgs) (ext : PhidataAppCtx)
    (cp : ContainerPathContext) (vpc_id : String) : AwsResourceGroup :=
  let ecs_cluster := match cfg.ecs_cluster with
    | some c => c
    | none =>
      { name := cfg.name ++ "-cluster",
        ecs_cluster_name := cfg.name,
        capacity_providers := [cfg.ecs_launch_type],
        skip_create := cfg.skip_create,
        skip_delete := cfg.skip_delete,
        wait_for_creation := cfg.wait_for_creation,
        wait_for_deletion := cfg.wait_for_deletion }
  let load_balancer := match cfg.elb with
    | some l => l
    | none =>
      { name := cfg.name ++ "-lb",
        subnets := cfg.aws_subnets,
        security_groups := cfg.aws_security_groups,
        skip_create := cfg.skip_create,
        skip_delete := cfg.skip_delete,
        wait_for_creation := cfg.wait_for_creation,
        wait_for_deletion := cfg.wait_for_deletion }
  let target_group : TargetGroup :=
    { name := cfg.name ++ "-tg",
      port := ext.container_port_resolved,
      protocol := "HTTP",
      vpc_id := vpc_id,
      target_type := "ip",
      skip_create := cfg.skip_create,
      skip_delete := cfg.skip_delete,
      wait_for_creation := cfg.wait_for_creation,
      wait_for_deletion := cfg.wait_for_deletion }
  let listener : Listener :=
    { name := cfg.name ++ "-listener",
      protocol := "HTTP",
      port := 80,
      load_balancer := load_balancer,
      target_group := target_group,
      skip_create := cfg.skip_create,
      skip_delete := cfg.skip_delete,
      wait_for_creation := cfg.wait_for_creation,
      wait_for_deletion := cfg.wait_for_deletion }
  let ecs_container : EcsContainer :=
    { name := cfg.name,
      image := ext.image_str,
      port_mappings := [[("containerPort", ext.container_port_resolved)]],
      command := cfg.command,
      environment := awsContainerEnvMap cfg ext cp,
      log_configuration := awsLogConfiguration cfg ext,
      skip_create := cfg.skip_create,
      skip_delete := cfg.skip_delete,
      wait_for_creation := cfg.wait_for_creation,
      wait_for_deletion := cfg.wait_for_deletion }
  let ecs_task_definition : EcsTaskDefinition :=
    { name := cfg.name ++ "-td",
      family := cfg.name,
      network_mode := "awsvpc",
      cpu := cfg.ecs_task_cpu,
      memory := cfg.ecs_task_memory,
      containers := [ecs_container],
      requires_compatibilities := [cfg.ecs_launch_type],
      skip_create := cfg.skip_create,
      skip_delete := cfg.skip_delete,
      wait_for_creation := cfg.wait_for_creation,
      wait_for_deletion := cfg.wait_for_deletion }
  let aws_vpc_config : AwsVpcConfig :=
    { subnets := cfg.aws_subnets,
      securityGroups := cfg.aws_security_groups,
      assignPublicIp := if cfg.assign_public_ip then some ("ENABLED") else none }
  let ecs_service : EcsService :=
    { name := cfg.name ++ "-service",
      desired_count := cfg.ecs_service_count,
      launch_type := cfg.ecs_launch_type,
      cluster := ecs_cluster,
      task_definition := ecs_task_definition,
      target_group := target_group,
      target_container_name := ecs_container.name,
      target_container_port := ext.container_port_resolved,
      network_configuration := aws_vpc_config,
      force_delete := true,
      force_new_deployment := true,
      skip_create := cfg.skip_create,
      skip_delete := cfg.skip_delete,
      wait_for_creation := cfg.wait_for_creation,
      wait_for_deletion := cfg.wait_for_deletion }
  { name := cfg.name,
    enabled := ext.self_enabled,
    ecs_clusters := [ecs_cluster],
    ecs_task_definitions := [ecs_task_definition],
    ecs_services := [ecs_service],
    load_balancers := [load_balancer],
    target_groups := [target_group],
    listeners := [listener] }

/-- ServerBase.get_aws_rg.  The source never inspects its aws_build_context
parameter: it checks the workspace root and container paths, resolves the
VPC id from aws_subnets (raising on None subnets, on an empty subnet list,
and on subnets spanning more than one VPC), and builds the group. -/
def get_aws_rg (cfg : ServerBaseArgs) (ext : PhidataAppCtx)
    (aws_build_context : Option BuildContext) : BuildResult AwsResourceGroup :=
  match ext.workspace_root_path with
  | none => .absent
  | some _ =>
    match ext.container_paths_aws with
    | none => .absent
    | some cp =>
      match getVpcId ext.vpc_of_subnet cfg.aws_subnets with
      | .error e => .raised e
      | .ok vpc_id => .built (awsGroup cfg ext cp vpc_id)

/-- The validated response schema of the conversation-event call
(phi.api.schemas.conversation.ConversationResponseSchema, not under src/;
its contents are opaque to log_conversation_event). -/
structure ConversationResponseSchema where
  payload : String
deriving DecidableEq

/-- One HTTP response as log_conversation_event observes it: whether
invalid_response classifies it invalid, and the outcome of r.json, which
can itself raise or return None. -/
structure TelemetryResponse where
  invalid : Bool
  json : Except PyError (Option String)

/-- The environment of one log_conversation_event call: the
phi_cli_settings.api_enabled flag, the outcome of the POST (which can
raise), and the outcome of ConversationResponseSchema.model_validate on a
payload (which can raise). -/
structure TelemetryEnv where
  api_enabled : Bool
  post : Except PyError TelemetryResponse
  validate : String → Except PyError ConversationResponseSchema

/-- phi.api.conversation.log_conversation_event: no-op when the API is
disabled; everything after client creation runs inside try/except, so a
raising transport, an invalid response, a None JSON body and a failing
model validation all fall through to return None. -/
def log_conversation_event (t : TelemetryEnv) :
    BuildResult ConversationResponseSchema :=
  if t.api_enabled = false then .absent
  else
    match t.post with
    | .error _ => .absent
    | .ok r =>
      if r.invalid then .absent
      else
        match r.json with
        | .error _ => .absent
        | .ok none => .absent
        | .ok (some j) =>
          match t.validate j with
          | .error _ => .absent
          | .ok s => .built s

/-- Ports of the single docker container of a build result. -/
def dockerContainerPorts (r : DockerBuildOut) : Option (List (String × Nat)) :=
  match r.result with
  | .built g =>
    match g.containers with
    | [c] => c.ports
    | _ => none
  | _ => none

/-- Environment of the single docker container of a build result. -/
def dockerEnvOf (r : DockerBuildOut) : Option EnvMap :=
  match r.result with
  | .built g =>
    match g.containers with
    | [c] => some c.environment
    | _ => none
  | _ => none

/-- The generated Deployment of a K8s build result: the last entry of the
deployments list (the builder appends it after the caller extras). -/
def k8sMainDeployment :
    BuildResult CreateK8sResourceGroup → Option CreateDeployment
  | .built g =>
    match g.deployments with
    | some ds => ds.getLast?
    | none => none
  | _ => none

/-- Container names of the generated Deployment. -/
def k8sMainContainerNames (r : BuildResult CreateK8sResourceGroup) :
    Option (List String) :=
  (k8sMainDeployment r).map (fun d => d.containers.map (fun c => c.container_name))

/-- Init containers of the generated Deployment. -/
def k8sInitContainersOf (r : BuildResult CreateK8sResourceGroup) :
    Option (List CreateContainer) :=
  match k8sMainDeployment r with
  | some d => d.init_containers
  | none => none

/-- Name of the first container of the generated Deployment. -/
def k8sPrimaryContainerName (r : BuildResult CreateK8sResourceGroup) :
    Option String :=
  match k8sMainDeployment r with
  | some d =>
    match d.containers with
    | c :: _ => some c.container_name
    | [] => none
  | none => none

/-- Value bound to a key in the pod annotations of the generated Deployment. -/
def k8sPodAnnotationValue (r : BuildResult CreateK8sResourceGroup)
    (k : String) : Option String :=
  match k8sMainDeployment r with
  | some d => dictLookup d.pod_annotations k
  | none => none

/-- Data of the generated env ConfigMap: the last entry of the config_maps
list (the builder appends it after the caller extras). -/
def k8sEnvConfigMapData (r : BuildResult CreateK8sResourceGroup) :
    Option EnvMap :=
  match r with
  | .built g =>
    match g.config_maps with
    | some cms => (cms.getLast?).map (fun cm => cm.data)
    | none => none
  | _ => none

/-- VPC id of the target group of an AWS build result. -/
def awsTargetVpcId : BuildResult AwsResourceGroup → Option String
  | .built g => (g.target_groups.head?).map (fun tg => tg.vpc_id)
  | _ => none

/-- Log configuration of the single container of the single task definition
of an AWS build result. -/
def awsEcsLogConfigOf : BuildResult AwsResourceGroup → Option LogConfiguration
  | .built g =>
    match g.ecs_task_definitions with
    | [td] =>
      match td.containers with
      | [c] => some c.log_configuration
      | _ => none
    | _ => none
  | _ => none

theorem getLast?_append_single {A : Type} (l : List A) (a : A) :
    (l ++ [a]).getLast? = some a := by
  rw [List.getLast?_append_cons]
  rfl

theorem append_single_isEmpty {A : Type} (l : List A) (a : A) :
    (l ++ [a]).isEmpty = false := by
  cases l <;> rfl

theorem pyTruthy_some_ne_nil {A : Type} (m : List A) (hne : m ≠ []) :
    pyTruthy (some m) = true := by
  cases m with
  | nil => exact absurd rfl hne
  | cons a rest => rfl

theorem get_k8s_rg_built (cfg : ServerBaseArgs) (ext : PhidataAppCtx)
    (bctx : K8sBuildContext) (w : String) (cp : ContainerPathContext)
    (hws : ext.workspace_root_path = some w)
    (hcp : ext.container_paths = some cp) :
    get_k8s_rg cfg ext (some (.k8s bctx)) =
      .built (k8sGroup cfg ext bctx w cp) := by
  simp [get_k8s_rg, hws, hcp]

theorem k8sGroup_deployments (cfg : ServerBaseArgs) (ext : PhidataAppCtx)
    (bctx : K8sBuildContext) (w : String) (cp : ContainerPathContext) :
    (k8sGroup cfg ext bctx w cp).deployments =
      some (cfg.extra_deployments.getD [] ++
        [k8sDeploymentRes cfg ext bctx w cp]) := by
  simp only [k8sGroup]
  simp [listOpt, append_single_isEmpty]

theorem k8sMainDeployment_eq (cfg : ServerBaseArgs) (ext : PhidataAppCtx)
    (bctx : K8sBuildContext) (w : String) (cp : ContainerPathContext)
    (hws : ext.workspace_root_path = some w)
    (hcp : ext.container_paths = some cp) :
    k8sMainDeployment (get_k8s_rg cfg ext (some (.k8s bctx))) =
      some (k8sDeploymentRes cfg ext bctx w cp) := by
  rw [get_k8s_rg_built cfg ext bctx w cp hws hcp]
  show (match (k8sGroup cfg ext bctx w cp).deployments with
    | some ds => ds.getLast?
    | none => none) = _
  rw [k8sGroup_deployments]
  simp [getLast?_append_single]

theorem dictUpdateOpt_none {V : Type} (e : List (String × V)) :
    dictUpdateOpt e none = e := rfl

/-- Lookup through the conditional dict.update pattern of the builders. -/
theorem dictLookup_updateOpt {V : Type} (e : List (String × V))
    (o : Option (List (String × V))) (k : String)
    (h : nodupKeys (o.getD []) = true) :
    dictLookup (dictUpdateOpt e o) k =
      optOr (dictLookup (o.getD []) k) (dictLookup e k) := by
  cases o with
  | none => rfl
  | some d => exact dictLookup_update e d k (by simpa using h)

theorem subnetVpcFold_start (vpcOf : String → String) (s : String)
    (rest : List String) :
    subnetVpcFold vpcOf [] (s :: rest) =
      subnetVpcFold vpcOf [vpcOf s] rest := by
  have hadd : setAdd [] (vpcOf s) = [vpcOf s] := by
    unfold setAdd
    rw [if_neg (List.not_mem_nil (vpcOf s))]
    rfl
  simp only [subnetVpcFold, hadd]
  rw [if_neg (by simp)]

theorem subnetVpcFold_same (vpcOf : String → String) (v : String)
    (l : List String) (h : ∀ s ∈ l, vpcOf s = v) :
    subnetVpcFold vpcOf [v] l = .ok [v] := by
  induction l with
  | nil => rfl
  | cons s rest ih =>
    have hv : vpcOf s = v := h s (List.mem_cons_self s rest)
    have hadd : setAdd [v] (vpcOf s) = [v] := by
      rw [hv]
      unfold setAdd
      rw [if_pos (by simp)]
    simp only [subnetVpcFold, hadd]
    rw [if_neg (by simp)]
    exact ih (fun s2 hs2 => h s2 (List.mem_cons_of_mem s hs2))

theorem subnetVpcFold_diff (vpcOf : String → String) (u : String)
    (l : List String) (h : ∃ s ∈ l, vpcOf s ≠ u) :
    subnetVpcFold vpcOf [u] l =
      .error (.valueError ("Subnets must be in the same VPC")) := by
  induction l with
  | nil =>
    rcases h with ⟨s, hs, _⟩
    cases hs
  | cons s rest ih =>
    by_cases hv : vpcOf s = u
    · have hrest : ∃ t ∈ rest, vpcOf t ≠ u := by
        rcases h with ⟨t, ht, hneq⟩
        rcases List.mem_cons.mp ht with rfl | ht2
        · exact absurd hv hneq
        · exact ⟨t, ht2, hneq⟩
      have hadd : setAdd [u] (vpcOf s) = [u] := by
        rw [hv]
        unfold setAdd
        rw [if_pos (by simp)]
      simp only [subnetVpcFold, hadd]
      rw [if_neg (by simp)]
      exact ih hrest
    · have hadd : setAdd [u] (vpcOf s) = [u, vpcOf s] := by
        have hnm : ¬ (vpcOf s) ∈ [u] := by
          simp only [List.mem_singleton]
          exact hv
        unfold setAdd
        rw [if_neg hnm]
        rfl
      simp only [subnetVpcFold, hadd]
      rw [if_pos (by simp)]

theorem getVpcId_same (vpcOf : String → String) (v : String) (l : List String)
    (hne : l ≠ []) (h : ∀ s ∈ l, vpcOf s = v) :
    getVpcId vpcOf (some l) = .ok v := by
  cases l with
  | nil => exact absurd rfl hne
  | cons s rest =>
    have hv : vpcOf s = v := h s (List.mem_cons_self s rest)
    have hfold : subnetVpcFold vpcOf [] (s :: rest) = .ok [v] := by
      rw [subnetVpcFold_start, hv]
      exact subnetVpcFold_same vpcOf v rest
        (fun s2 hs2 => h s2 (List.mem_cons_of_mem s hs2))
    show (match subnetVpcFold vpcOf [] (s :: rest) with
      | Except.error e => Except.error e
      | Except.ok [] => Except.error (PyError.keyError ("pop from an empty set"))
      | Except.ok (v2 :: _) => Except.ok v2) = Except.ok v
    rw [hfold]

theorem getVpcId_multi (vpcOf : String → String) (l : List String)
    (h : ∃ s1 ∈ l, ∃ s2 ∈ l, vpcOf s1 ≠ vpcOf s2) :
    getVpcId vpcOf (some l) =
      .error (.valueError ("Subnets must be in the same VPC")) := by
  cases l with
  | nil =>
    rcases h with ⟨s, hs, _⟩
    cases hs
  | cons s rest =>
    have hrest : ∃ t ∈ rest, vpcOf t ≠ vpcOf s := by
      by_contra hall
      push_neg at hall
      rcases h with ⟨s1, hs1, s2, hs2, hneq⟩
      have e1 : vpcOf s1 = vpcOf s := by
        rcases List.mem_cons.mp hs1 with rfl | h1
        · rfl
        · exact hall s1 h1
      have e2 : vpcOf s2 = vpcOf s := by
        rcases List.mem_cons.mp hs2 with rfl | h2
        · rfl
        · exact hall s2 h2
      exact hneq (e1.trans e2.symm)
    have hfold : subnetVpcFold vpcOf [] (s :: rest) =
        .error (.valueError ("Subnets must be in the same VPC")) := by
      rw [subnetVpcFold_start]
      exact subnetVpcFold_diff vpcOf (vpcOf s) rest hrest
    show (match subnetVpcFold vpcOf [] (s :: rest) with
      | Except.error e => Except.error e
      | Except.ok [] => Except.error (PyError.keyError ("pop from an empty set"))
      | Except.ok (v2 :: _) => Except.ok v2) =
      Except.error (PyError.valueError ("Subnets must be in the same VPC"))
    rw [hfold]

/-- Config for the C2 counterexample: one AWS subnet, all else default. -/
def cfgC2 : ServerBaseArgs := { aws_subnets := some ["subnet-a"] }

/-- Base context for the C2 counterexample: resolvable workspace and paths,
every subnet in vpc-1. -/
def extC2 : PhidataAppCtx :=
  { workspace_root_path := some ("/ws/app"),
    container_paths_aws := some { },
    vpc_of_subnet := fun _ => "vpc-1" }

/-- C2 counterexample: the AWS builder, handed a Docker-variant build
context, still returns a built resource group instead of an absent result,
because get_aws_rg never inspects its aws_build_context parameter. -/
theorem c2_counterexample :
    (get_aws_rg cfgC2 extC2
      (some (BuildContext.docker { network := "phi" }))).isBuilt = true := by
  decide

/-- C2 amended: the Docker and K8s builders return an absent result on any
build-context value that is not their own platform variant, while the AWS
builder ignores its build context entirely, returning the same result for
every context value. -/
theorem c2_wrong_context (cfg : ServerBaseArgs) (ext : PhidataAppCtx)
    (ctxd ctxk ctxa ctxa2 : Option BuildContext)
    (hd : isDockerCtx ctxd = false) (hk : isK8sCtx ctxk = false) :
    (get_docker_rg cfg ext ctxd).result = .absent ∧
    get_k8s_rg cfg ext ctxk = .absent ∧
    get_aws_rg cfg ext ctxa = get_aws_rg cfg ext ctxa2 := by
  refine ⟨?_, ?_, rfl⟩
  · cases ctxd with
    | none => rfl
    | some c =>
      cases c with
      | docker d => simp [isDockerCtx] at hd
      | k8s k => rfl
      | aws a => rfl
  · cases ctxk with
    | none => rfl
    | some c =>
      cases c with
      | docker d => rfl
      | k8s k => simp [isK8sCtx] at hk
      | aws a => rfl

/-- C2 witness: the amended theorem at concrete wrong-variant contexts. -/
theorem c2_witness :
    isDockerCtx (some (BuildContext.k8s { })) = false ∧
    isK8sCtx (some (BuildContext.docker { network := "phi" })) = false ∧
    ((get_docker_rg cfgC2 extC2 (some (BuildContext.k8s { }))).result = .absent ∧
     get_k8s_rg cfgC2 extC2 (some (BuildContext.docker { network := "phi" })) =
       .absent ∧
     get_aws_rg cfgC2 extC2 (some (BuildContext.aws { })) =
       get_aws_rg cfgC2 extC2 none) :=
  ⟨rfl, rfl, c2_wrong_context cfgC2 extC2 _ _ _ _ rfl rfl⟩

/-- C6: log_conversation_event never raises; it returns None when telemetry
is disabled, when the POST raises, when the response is classified invalid,
when its JSON body raises or is None, and when model validation raises; it
returns a parsed response schema exactly when the call succeeds and
validates. -/
theorem c6_log_event_total (t : TelemetryEnv) :
    (∀ e, log_conversation_event t ≠ .raised e) ∧
    (t.api_enabled = false → log_conversation_event t = .absent) ∧
    (∀ e, t.post = .error e → log_conversation_event t = .absent) ∧
    (∀ r, t.post = .ok r → r.invalid = true →
      log_conversation_event t = .absent) ∧
    (∀ r e, t.post = .ok r → r.json = .error e →
      log_conversation_event t = .absent) ∧
    (∀ r, t.post = .ok r → r.json = .ok none →
      log_conversation_event t = .absent) ∧
    (∀ r j e, t.post = .ok r → r.json = .ok (some j) →
      t.validate j = .error e → log_conversation_event t = .absent) ∧
    (∀ s, log_conversation_event t = .built s →
      t.api_enabled = true ∧ ∃ r j, t.post = .ok r ∧ r.invalid = false ∧
        r.json = .ok (some j) ∧ t.validate j = .ok s) := by
  have hchar : log_conversation_event t = .absent ∨
      (t.api_enabled = true ∧ ∃ r j s2, t.post = .ok r ∧ r.invalid = false ∧
        r.json = .ok (some j) ∧ t.validate j = .ok s2 ∧
        log_conversation_event t = .built s2) := by
    by_cases hen : t.api_enabled = false
    · exact Or.inl (by simp [log_conversation_event, hen])
    · have hen2 : t.api_enabled = true := by
        cases he : t.api_enabled
        · exact absurd he hen
        · rfl
      cases hp : t.post with
      | error e => exact Or.inl (by simp [log_conversation_event, hen, hp])
      | ok r =>
        by_cases hi : r.invalid = true
        · exact Or.inl (by simp [log_conversation_event, hen, hp, hi])
        · have hi2 : r.invalid = false := by
            cases hb : r.invalid
            · rfl
            · exact absurd hb hi
          cases hj : r.json with
          | error e =>
            exact Or.inl (by simp [log_conversation_event, hen, hp, hi2, hj])
          | ok jo =>
            cases jo with
            | none =>
              exact Or.inl (by simp [log_conversation_event, hen, hp, hi2, hj])
            | some j =>
              cases hv : t.validate j with
              | error e =>
                exact Or.inl
                  (by simp [log_conversation_event, hen, hp, hi2, hj, hv])
              | ok s2 =>
                refine Or.inr ⟨hen2, r, j, s2, rfl, hi2, hj, hv, ?_⟩
                simp [log_conversation_event, hen, hp, hi2, hj, hv]
  refine ⟨?_, ?_, ?_, ?_, ?_, ?_, ?_, ?_⟩
  · intro e he
    rcases hchar with hA | ⟨_, r, j, s2, _, _, _, _, hB⟩
    · rw [hA] at he
      exact BuildResult.noConfusion he
    · rw [hB] at he
      exact BuildResult.noConfusion he
  · intro hdis
    rcases hchar with hA | ⟨hen, _⟩
    · exact hA
    · rw [hdis] at hen
      exact Bool.noConfusion hen
  · intro e hpe
    rcases hchar with hA | ⟨_, r, j, s2, hp, _, _, _, _⟩
    · exact hA
    · rw [hpe] at hp
      exact Except.noConfusion hp
  · intro r hp hi
    rcases hchar with hA | ⟨_, r2, j, s2, hp2, hi2, _, _, _⟩
    · exact hA
    · rw [hp] at hp2
      injection hp2 with hr
      rw [← hr] at hi2
      rw [hi] at hi2
      exact Bool.noConfusion hi2
  · intro r e hp hj
    rcases hchar with hA | ⟨_, r2, j, s2, hp2, _, hj2, _, _⟩
    · exact hA
    · rw [hp] at hp2
      injection hp2 with hr
      rw [← hr] at hj2
      rw [hj] at hj2
      exact Except.noConfusion hj2
  · intro r hp hj
    rcases hchar with hA | ⟨_, r2, j, s2, hp2, _, hj2, _, _⟩
    · exact hA
    · rw [hp] at hp2
      injection hp2 with hr
      rw [← hr] at hj2
      rw [hj] at hj2
      injection hj2 with h3
      exact Option.noConfusion h3
  · intro r j e hp hj hv
    rcases hchar with hA | ⟨_, r2, j2, s2, hp2, _, hj2, hv2, _⟩
    · exact hA
    · rw [hp] at hp2
      injection hp2 with hr
      rw [← hr] at hj2
      rw [hj] at hj2
      injection hj2 with h3
      injection h3 with h4
      rw [← h4] at hv2
      rw [hv] at hv2
      exact Except.noConfusion hv2
  · intro s hs
    rcases hchar with hA | ⟨hen, r, j, s2, hp, hi, hj, hv, hB⟩
    · rw [hA] at hs
      exact BuildResult.noConfusion hs
    · rw [hB] at hs
      injection hs with h2
      exact ⟨hen, r, j, hp, hi, hj, h2 ▸ hv⟩

/-- Telemetry environment for the C6 witness: disabled API flag. -/
def tC6 : TelemetryEnv :=
  { api_enabled := false,
    post := .error (.valueError ("connection refused")),
    validate := fun _ => .error (.valueError ("invalid payload")) }

/-- C6 witness: the theorem at a concrete disabled environment. -/
theorem c6_witness : log_conversation_event tC6 = .absent :=
  (c6_log_event_total tC6).2.1 rfl

/-- C10: with a resolvable workspace and container paths, get_aws_rg raises
an uncaught exception when aws_subnets is None (iterating None) or an empty
list (popping from the empty VPC-id set), rather than returning an absent
result; a non-empty subnet list is a precondition for the builder to either
succeed or fail gracefully. -/
theorem c10_subnets_precondition (cfg : ServerBaseArgs) (ext : PhidataAppCtx)
    (ctx : Option BuildContext) (w : String) (cp : ContainerPathContext)
    (hws : ext.workspace_root_path = some w)
    (hcp : ext.container_paths_aws = some cp) :
    (cfg.aws_subnets = none →
      get_aws_rg cfg ext ctx =
        .raised (.typeError ("NoneType is not iterable"))) ∧
    (cfg.aws_subnets = some [] →
      get_aws_rg cfg ext ctx =
        .raised (.keyError ("pop from an empty set"))) := by
  constructor
  · intro h
    simp [get_aws_rg, hws, hcp, h, getVpcId]
  · intro h
    simp [get_aws_rg, hws, hcp, h, getVpcId, subnetVpcFold]

/-- Config and base context for the C10 witness: default (None) subnets. -/
def cfgC10 : ServerBaseArgs := { }

def extC10 : PhidataAppCtx :=
  { workspace_root_path := some ("/ws/app"), container_paths_aws := some { } }

/-- C10 witness: the theorem at the default configuration. -/
theorem c10_witness :
    cfgC10.aws_subnets = none ∧
    get_aws_rg cfgC10 extC10 none =
      .raised (.typeError ("NoneType is not iterable")) :=
  ⟨rfl,
    (c10_subnets_precondition cfgC10 extC10 none ("/ws/app") { } rfl rfl).1 rfl⟩

/-- C4: for a non-empty subnet list, if every subnet resolves to the same
VPC the build proceeds and the target group carries that VPC id; if two
subnets resolve to different VPCs the build raises ValueError with the
message of the source, and no resource group is produced. -/
theorem c4_vpc_resolution (cfg : ServerBaseArgs) (ext : PhidataAppCtx)
    (ctx : Option BuildContext) (l : List String) (v w : String)
    (cp : ContainerPathContext)
    (hsub : cfg.aws_subnets = some l) (hne : l ≠ [])
    (hws : ext.workspace_root_path = some w)
    (hcp : ext.container_paths_aws = some cp) :
    ((∀ s ∈ l, ext.vpc_of_subnet s = v) →
      get_aws_rg cfg ext ctx = .built (awsGroup cfg ext cp v) ∧
      awsTargetVpcId (get_aws_rg cfg ext ctx) = some v) ∧
    ((∃ s1 ∈ l, ∃ s2 ∈ l, ext.vpc_of_subnet s1 ≠ ext.vpc_of_subnet s2) →
      get_aws_rg cfg ext ctx =
        .raised (.valueError ("Subnets must be in the same VPC"))) := by
  constructor
  · intro hall
    have hv : getVpcId ext.vpc_of_subnet cfg.aws_subnets = .ok v := by
      rw [hsub]
      exact getVpcId_same ext.vpc_of_subnet v l hne hall
    have hres : get_aws_rg cfg ext ctx = .built (awsGroup cfg ext cp v) := by
      simp [get_aws_rg, hws, hcp, hv]
    refine ⟨hres, ?_⟩
    rw [hres]
    simp [awsTargetVpcId, awsGroup]
  · intro hmulti
    have hv : getVpcId ext.vpc_of_subnet cfg.aws_subnets =
        .error (.valueError ("Subnets must be in the same VPC")) := by
      rw [hsub]
      exact getVpcId_multi ext.vpc_of_subnet l hmulti
    simp [get_aws_rg, hws, hcp, hv]

/-- Config and base context for the C4 witness: two subnets, both in vpc-1. -/
def cfgC4 : ServerBaseArgs := { aws_subnets := some ["subnet-a", "subnet-b"] }

def extC4 : PhidataAppCtx :=
  { workspace_root_path := some ("/ws/app"), container_paths_aws := some { },
    vpc_of_subnet := fun _ => "vpc-1" }

/-- C4 witness: the theorem at the two-subnet single-VPC configuration. -/
theorem c4_witness :
    cfgC4.aws_subnets = some ["subnet-a", "subnet-b"] ∧
    (((∀ s ∈ ["subnet-a", "subnet-b"], extC4.vpc_of_subnet s = "vpc-1") →
        get_aws_rg cfgC4 extC4 none =
          .built (awsGroup cfgC4 extC4 { } ("vpc-1")) ∧
        awsTargetVpcId (get_aws_rg cfgC4 extC4 none) = some ("vpc-1")) ∧
     ((∃ s1 ∈ ["subnet-a", "subnet-b"], ∃ s2 ∈ ["subnet-a", "subnet-b"],
         extC4.vpc_of_subnet s1 ≠ extC4.vpc_of_subnet s2) →
        get_aws_rg cfgC4 extC4 none =
          .raised (.valueError ("Subnets must be in the same VPC")))) :=
  ⟨rfl, c4_vpc_resolution cfgC4 extC4 none ["subnet-a", "subnet-b"] ("vpc-1")
    ("/ws/app") { } rfl (by decide) rfl rfl⟩

/-- C7: with open_container_port, container_port 8080 and
container_host_port 3333, the docker container port map binds 8080 to 3333
and keeps every caller-supplied binding whose key is not 8080; caller keys
are never dropped (a caller binding for key 8080 itself is overwritten by
the merge). -/
theorem c7_docker_port_merge (cfg : ServerBaseArgs) (ext : PhidataAppCtx)
    (dctx : DockerBuildContext) (w : String) (cp : ContainerPathContext)
    (hws : ext.workspace_root_path = some w)
    (hcp : ext.container_paths = some cp)
    (hopen : cfg.open_container_port = true)
    (hport : cfg.container_port = 8080)
    (hhost : cfg.container_host_port = 3333) :
    ∃ pd, dockerContainerPorts
        (get_docker_rg cfg ext (some (.docker dctx))) = some pd ∧
      dictLookup pd ("8080") = some 3333 ∧
      ∀ k pv, dictLookup (cfg.container_ports_docker.getD []) k = some pv →
        dictLookup pd k = some (if k = "8080" then 3333 else pv) := by
  have hports : dockerPorts cfg =
      dictInsert (cfg.container_ports_docker.getD []) ("8080") 3333 := by
    simp only [dockerPorts, hopen, hport, hhost, if_true]
    rfl
  have hne2 : (dockerPorts cfg).isEmpty = false := by
    rw [hports]
    exact dictInsert_ne_nil _ _ _
  have hacc : dockerContainerPorts
      (get_docker_rg cfg ext (some (.docker dctx))) =
      some (dockerPorts cfg) := by
    simp [get_docker_rg, dockerContainerPorts, hws, hcp, dockerGroup, listOpt,
      hne2]
  refine ⟨dockerPorts cfg, hacc, ?_, ?_⟩
  · rw [hports, dictLookup_insert, if_pos rfl]
  · intro k pv hk
    rw [hports, dictLookup_insert]
    by_cases he : k = "8080"
    · rw [if_pos he.symm, if_pos he]
    · rw [if_neg (fun h2 => he h2.symm), if_neg he, hk]

/-- Config and base context for the C7 witness: one caller binding plus the
convenience port. -/
def cfgC7 : ServerBaseArgs :=
  { open_container_port := true, container_port := 8080,
    container_host_port := 3333,
    container_ports_docker := some [("9999", 1111)] }

def extC7 : PhidataAppCtx :=
  { workspace_root_path := some ("/ws/app"), container_paths := some { } }

/-- C7 witness: the theorem at the concrete configuration. -/
theorem c7_witness :
    cfgC7.open_container_port = true ∧
    (∃ pd, dockerContainerPorts (get_docker_rg cfgC7 extC7
        (some (.docker { network := "phi" }))) = some pd ∧
      dictLookup pd ("8080") = some 3333 ∧
      ∀ k pv, dictLookup (cfgC7.container_ports_docker.getD []) k = some pv →
        dictLookup pd k = some (if k = "8080" then 3333 else pv)) :=
  ⟨rfl, c7_docker_port_merge cfgC7 extC7 { network := "phi" } ("/ws/app") { }
    rfl rfl rfl rfl rfl⟩

/-- A caller-supplied extra ConfigMap used by the C3 configurations. -/
def cmC3 : CreateConfigMap :=
  { cm_name := "user-cm", app_name := "server", cm_namespace := "default",
    data := [] }

/-- Config and base context for the C3 counterexample: a non-empty caller
port dict together with the convenience port, and a non-empty
caller-supplied extra_configmaps list. -/
def cfgC3 : ServerBaseArgs :=
  { open_container_port := true, container_port := 8080,
    container_host_port := 3333,
    container_ports_docker := some [("1111", 2222)],
    extra_configmaps := some [cmC3] }

def extC3 : PhidataAppCtx :=
  { workspace_root_path := some ("/ws/app"), container_paths := some { } }

/-- C3 counterexample: after a docker build the contents of the
caller-supplied container_ports_docker dict have changed, and after a K8s
build the contents of the caller-supplied extra_configmaps list have
changed (the generated env ConfigMap was appended into it) — both builders
alias and mutate caller collections, so AppConfig is not left unchanged. -/
theorem c3_counterexample :
    ((get_docker_rg cfgC3 extC3
        (some (BuildContext.docker { network := "phi" }))).final_ports ≠
      cfgC3.container_ports_docker) ∧
    ((k8sFinalExtras cfgC3 extC3
        (some (BuildContext.k8s { }))).final_extra_configmaps ≠
      cfgC3.extra_configmaps) := by
  exact ⟨by decide, by decide⟩

/-- C3 amended: no builder reassigns an AppConfig field, and caller
collections that are absent or empty are untouched (Python or-truthiness
gives the builder fresh locals), as are the Docker dicts when the
corresponding feature flag is off; but the Docker builder mutates a
non-empty caller-supplied container_ports_docker in place with the
convenience binding when open_container_port is set and a non-empty
container_volumes_docker with the workspace mount when mount_workspace is
set, and the K8s builder mutates every non-empty caller-supplied extra_*
list in place, appending the generated env ConfigMap, env Secret, Service,
Deployment, convenience port and workspace volume and inserting the
primary container into extra_containers; the AWS builder leaves the whole
AppConfig unchanged on every path. -/
theorem c3_builder_mutation (cfg : ServerBaseArgs) (ext : PhidataAppCtx)
    (dctx : DockerBuildContext) (bctx : K8sBuildContext) (w : String)
    (cp : ContainerPathContext)
    (hws : ext.workspace_root_path = some w)
    (hcp : ext.container_paths = some cp) :
    (pyTruthy cfg.container_ports_docker = false →
      (get_docker_rg cfg ext (some (.docker dctx))).final_ports =
        cfg.container_ports_docker) ∧
    (pyTruthy cfg.container_volumes_docker = false →
      (get_docker_rg cfg ext (some (.docker dctx))).final_volumes =
        cfg.container_volumes_docker) ∧
    (cfg.open_container_port = false →
      (get_docker_rg cfg ext (some (.docker dctx))).final_ports =
        cfg.container_ports_docker) ∧
    (cfg.mount_workspace = false →
      (get_docker_rg cfg ext (some (.docker dctx))).final_volumes =
        cfg.container_volumes_docker) ∧
    (∀ m, cfg.container_ports_docker = some m → m ≠ [] →
      cfg.open_container_port = true →
      (get_docker_rg cfg ext (some (.docker dctx))).final_ports =
        some (dictInsert m (toString cfg.container_port)
          cfg.container_host_port)) ∧
    (∀ vm, cfg.container_volumes_docker = some vm → vm ≠ [] →
      cfg.mount_workspace = true →
      (get_docker_rg cfg ext (some (.docker dctx))).final_volumes =
        some (dockerVolumes cfg ext w cp)) ∧
    (pyTruthy cfg.extra_secrets = false →
      (k8sFinalExtras cfg ext (some (.k8s bctx))).final_extra_secrets =
        cfg.extra_secrets) ∧
    (pyTruthy cfg.extra_configmaps = false →
      (k8sFinalExtras cfg ext (some (.k8s bctx))).final_extra_configmaps =
        cfg.extra_configmaps) ∧
    (pyTruthy cfg.extra_services = false →
      (k8sFinalExtras cfg ext (some (.k8s bctx))).final_extra_services =
        cfg.extra_services) ∧
    (pyTruthy cfg.extra_deployments = false →
      (k8sFinalExtras cfg ext (some (.k8s bctx))).final_extra_deployments =
        cfg.extra_deployments) ∧
    (pyTruthy cfg.extra_containers = false →
      (k8sFinalExtras cfg ext (some (.k8s bctx))).final_extra_containers =
        cfg.extra_containers) ∧
    (pyTruthy cfg.extra_ports = false →
      (k8sFinalExtras cfg ext (some (.k8s bctx))).final_extra_ports =
        cfg.extra_ports) ∧
    (pyTruthy cfg.extra_volumes = false →
      (k8sFinalExtras cfg ext (some (.k8s bctx))).final_extra_volumes =
        cfg.extra_volumes) ∧
    (∀ m, cfg.extra_secrets = some m → m ≠ [] →
      (k8sFinalExtras cfg ext (some (.k8s bctx))).final_extra_secrets =
        some (k8sSecrets cfg ext bctx)) ∧
    (∀ m, cfg.extra_configmaps = some m → m ≠ [] →
      (k8sFinalExtras cfg ext (some (.k8s bctx))).final_extra_configmaps =
        some (m ++ [k8sEnvConfigMap cfg ext bctx cp])) ∧
    (∀ m, cfg.extra_services = some m → m ≠ [] →
      (k8sFinalExtras cfg ext (some (.k8s bctx))).final_extra_services =
        some (k8sServicesList cfg ext bctx w cp)) ∧
    (∀ m, cfg.extra_deployments = some m → m ≠ [] →
      (k8sFinalExtras cfg ext (some (.k8s bctx))).final_extra_deployments =
        some (m ++ [k8sDeploymentRes cfg ext bctx w cp])) ∧
    (∀ m, cfg.extra_containers = some m → m ≠ [] →
      (k8sFinalExtras cfg ext (some (.k8s bctx))).final_extra_containers =
        some (k8sSparkContainer cfg ext bctx w cp ::
          (k8sWorkload cfg ext bctx w cp).containers)) ∧
    (∀ m, cfg.extra_ports = some m → m ≠ [] →
      (k8sFinalExtras cfg ext (some (.k8s bctx))).final_extra_ports =
        some (k8sPortsList cfg)) ∧
    (∀ m, cfg.extra_volumes = some m → m ≠ [] →
      (k8sFinalExtras cfg ext (some (.k8s bctx))).final_extra_volumes =
        some ((k8sWorkload cfg ext bctx w cp).volumes)) ∧
    (∀ ctxa, awsFinalConfig cfg ext ctxa = cfg) := by
  have hfp : (get_docker_rg cfg ext (some (.docker dctx))).final_ports =
      (if pyTruthy cfg.container_ports_docker then some (dockerPorts cfg)
       else cfg.container_ports_docker) := by
    simp [get_docker_rg, hws, hcp]
  have hfv : (get_docker_rg cfg ext (some (.docker dctx))).final_volumes =
      (if pyTruthy cfg.container_volumes_docker then
        some (dockerVolumes cfg ext w cp)
       else cfg.container_volumes_docker) := by
    simp [get_docker_rg, hws, hcp]
  have hKsec : (k8sFinalExtras cfg ext (some (.k8s bctx))).final_extra_secrets =
      (if pyTruthy cfg.extra_secrets then some (k8sSecrets cfg ext bctx)
       else cfg.extra_secrets) := by
    simp [k8sFinalExtras, hws, hcp]
  have hKcm : (k8sFinalExtras cfg ext
        (some (.k8s bctx))).final_extra_configmaps =
      (if pyTruthy cfg.extra_configmaps then
        some (k8sConfigMaps cfg ext bctx cp)
       else cfg.extra_configmaps) := by
    simp [k8sFinalExtras, hws, hcp]
  have hKsvc : (k8sFinalExtras cfg ext
        (some (.k8s bctx))).final_extra_services =
      (if pyTruthy cfg.extra_services then
        some (k8sServicesList cfg ext bctx w cp)
       else cfg.extra_services) := by
    simp [k8sFinalExtras, hws, hcp]
  have hKdep : (k8sFinalExtras cfg ext
        (some (.k8s bctx))).final_extra_deployments =
      (if pyTruthy cfg.extra_deployments then
        some (cfg.extra_deployments.getD [] ++
          [k8sDeploymentRes cfg ext bctx w cp])
       else cfg.extra_deployments) := by
    simp [k8sFinalExtras, hws, hcp]
  have hKcont : (k8sFinalExtras cfg ext
        (some (.k8s bctx))).final_extra_containers =
      (if pyTruthy cfg.extra_containers then
        some (k8sSparkContainer cfg ext bctx w cp ::
          (k8sWorkload cfg ext bctx w cp).containers)
       else cfg.extra_containers) := by
    simp [k8sFinalExtras, hws, hcp]
  have hKport : (k8sFinalExtras cfg ext
        (some (.k8s bctx))).final_extra_ports =
      (if pyTruthy cfg.extra_ports then some (k8sPortsList cfg)
       else cfg.extra_ports) := by
    simp [k8sFinalExtras, hws, hcp]
  have hKvol : (k8sFinalExtras cfg ext
        (some (.k8s bctx))).final_extra_volumes =
      (if pyTruthy cfg.extra_volumes then
        some ((k8sWorkload cfg ext bctx w cp).volumes)
       else cfg.extra_volumes) := by
    simp [k8sFinalExtras, hws, hcp]
  refine ⟨?_, ?_, ?_, ?_, ?_, ?_, ?_, ?_, ?_, ?_, ?_, ?_, ?_, ?_, ?_, ?_, ?_,
    ?_, ?_, ?_, ?_⟩
  · intro h
    rw [hfp, if_neg (by simp [h])]
  · intro h
    rw [hfv, if_neg (by simp [h])]
  · intro h
    rw [hfp]
    by_cases ht : pyTruthy cfg.container_ports_docker = true
    · rw [if_pos ht]
      cases hpd : cfg.container_ports_docker with
      | none =>
        rw [hpd] at ht
        simp [pyTruthy] at ht
      | some m => simp [dockerPorts, h, hpd]
    · rw [if_neg ht]
  · intro h
    rw [hfv]
    by_cases ht : pyTruthy cfg.container_volumes_docker = true
    · rw [if_pos ht]
      cases hpd : cfg.container_volumes_docker with
      | none =>
        rw [hpd] at ht
        simp [pyTruthy] at ht
      | some m => simp [dockerVolumes, h, hpd]
    · rw [if_neg ht]
  · intro m hm hne hopen
    have ht : pyTruthy cfg.container_ports_docker = true := by
      rw [hm]
      cases m with
      | nil => exact absurd rfl hne
      | cons p rest => rfl
    rw [hfp, if_pos ht]
    simp [dockerPorts, hopen, hm]
  · intro vm hvm hne hmw
    have ht : pyTruthy cfg.container_volumes_docker = true := by
      rw [hvm]
      cases vm with
      | nil => exact absurd rfl hne
      | cons p rest => rfl
    rw [hfv, if_pos ht]
  · intro h
    rw [hKsec, if_neg (by simp [h])]
  · intro h
    rw [hKcm, if_neg (by simp [h])]
  · intro h
    rw [hKsvc, if_neg (by simp [h])]
  · intro h
    rw [hKdep, if_neg (by simp [h])]
  · intro h
    rw [hKcont, if_neg (by simp [h])]
  · intro h
    rw [hKport, if_neg (by simp [h])]
  · intro h
    rw [hKvol, if_neg (by simp [h])]
  · intro m hm hne
    rw [hKsec, if_pos (by rw [hm]; exact pyTruthy_some_ne_nil m hne)]
  · intro m hm hne
    rw [hKcm, if_pos (by rw [hm]; exact pyTruthy_some_ne_nil m hne)]
    simp [k8sConfigMaps, hm]
  · intro m hm hne
    rw [hKsvc, if_pos (by rw [hm]; exact pyTruthy_some_ne_nil m hne)]
  · intro m hm hne
    rw [hKdep, if_pos (by rw [hm]; exact pyTruthy_some_ne_nil m hne)]
    simp [hm]
  · intro m hm hne
    rw [hKcont, if_pos (by rw [hm]; exact pyTruthy_some_ne_nil m hne)]
  · intro m hm hne
    rw [hKport, if_pos (by rw [hm]; exact pyTruthy_some_ne_nil m hne)]
  · intro m hm hne
    rw [hKvol, if_pos (by rw [hm]; exact pyTruthy_some_ne_nil m hne)]
  · intro ctxa
    rfl

/-- Config and base context for the C3 witness. -/
def cfgC3w : ServerBaseArgs :=
  { open_container_port := true, container_port := 8080,
    container_host_port := 3333,
    container_ports_docker := some [("1111", 2222)],
    extra_configmaps := some [cmC3] }

def extC3w : PhidataAppCtx :=
  { workspace_root_path := some ("/ws/app"), container_paths := some { } }

/-- C3 witness: the amended theorem at a concrete configuration, exercising
the docker port mutation and the K8s extra_configmaps mutation. -/
theorem c3_witness :
    (get_docker_rg cfgC3w extC3w
        (some (.docker { network := "phi" }))).final_ports =
      some (dictInsert [("1111", 2222)] (toString cfgC3w.container_port)
        cfgC3w.container_host_port) ∧
    (k8sFinalExtras cfgC3w extC3w
        (some (.k8s { }))).final_extra_configmaps =
      some ([cmC3] ++ [k8sEnvConfigMap cfgC3w extC3w { } { }]) :=
  ⟨(c3_builder_mutation cfgC3w extC3w { network := "phi" } { } ("/ws/app") { }
      rfl rfl).2.2.2.2.1 [("1111", 2222)] rfl (by decide) rfl,
   (c3_builder_mutation cfgC3w extC3w { network := "phi" } { } ("/ws/app") { }
      rfl rfl).2.2.2.2.2.2.2.2.2.2.2.2.2.2.1 [cmC3] rfl (by decide)⟩

/-- Config and base context for the C1 counterexample: EmptyDir workspace
volume, git-sync sidecar requested, no repository URL. -/
def cfgC1 : ServerBaseArgs :=
  { mount_workspace := true,
    workspace_volume_type := some WorkspaceVolumeType.EmptyDir,
    create_git_sync_sidecar := true,
    git_sync_repo := none }

def extC1 : PhidataAppCtx :=
  { workspace_root_path := some ("/ws/app"), container_paths := some { } }

/-- C1 counterexample: the build does not fail — it returns a built resource
group (the source only logs GIT_SYNC_REPO invalid and continues), refuting
that the builder returns an absent result or raises a configuration error
in this situation. -/
theorem c1_counterexample :
    (get_k8s_rg cfgC1 extC1 (some (BuildContext.k8s { }))).isBuilt = true := by
  decide

/-- C1 amended: with EmptyDir (or unset) workspace volume, git-sync sidecar
requested and no repository URL, the K8s build logs an error and proceeds:
it returns a built graph whose generated Deployment holds exactly the
primary container followed by the caller-supplied extra containers (no
git-sync sidecar appended) and only the caller-supplied init containers. -/
theorem c1_no_sidecar (cfg : ServerBaseArgs) (ext : PhidataAppCtx)
    (bctx : K8sBuildContext) (w : String) (cp : ContainerPathContext)
    (hws : ext.workspace_root_path = some w)
    (hcp : ext.container_paths = some cp)
    (hmw : cfg.mount_workspace = true)
    (hvt : cfg.workspace_volume_type = none ∨
      cfg.workspace_volume_type = some WorkspaceVolumeType.EmptyDir)
    (hsc : cfg.create_git_sync_sidecar = true)
    (hrepo : cfg.git_sync_repo = none) :
    (get_k8s_rg cfg ext (some (.k8s bctx))).isBuilt = true ∧
    k8sMainContainerNames (get_k8s_rg cfg ext (some (.k8s bctx))) =
      some (ext.container_name_resolved ::
        (cfg.extra_containers.getD []).map (fun c => c.container_name)) ∧
    k8sInitContainersOf (get_k8s_rg cfg ext (some (.k8s bctx))) =
      listOpt (cfg.extra_init_containers.getD []) := by
  have hwl : (k8sWorkload cfg ext bctx w cp).containers =
        cfg.extra_containers.getD [] ∧
      (k8sWorkload cfg ext bctx w cp).init_containers =
        cfg.extra_init_containers.getD [] := by
    rcases hvt with hvt | hvt <;>
      exact ⟨by simp [k8sWorkload, hmw, hvt, hsc, hrepo],
        by simp [k8sWorkload, hmw, hvt, hsc, hrepo]⟩
  have hmain := k8sMainDeployment_eq cfg ext bctx w cp hws hcp
  refine ⟨?_, ?_, ?_⟩
  · rw [get_k8s_rg_built cfg ext bctx w cp hws hcp]
    rfl
  · unfold k8sMainContainerNames
    rw [hmain]
    have hcont : (k8sDeploymentRes cfg ext bctx w cp).containers =
        k8sSparkContainer cfg ext bctx w cp :: cfg.extra_containers.getD [] := by
      have h0 : (k8sDeploymentRes cfg ext bctx w cp).containers =
          k8sSparkContainer cfg ext bctx w cp ::
            (k8sWorkload cfg ext bctx w cp).containers := by
        simp only [k8sDeploymentRes]
      rw [h0, hwl.1]
    have hname : (k8sSparkContainer cfg ext bctx w cp).container_name =
        ext.container_name_resolved := by
      simp only [k8sSparkContainer]
    show some ((k8sDeploymentRes cfg ext bctx w cp).containers.map
      (fun c => c.container_name)) = _
    rw [hcont]
    simp [hname]
  · unfold k8sInitContainersOf
    rw [hmain]
    show (k8sDeploymentRes cfg ext bctx w cp).init_containers = _
    have hinit : (k8sDeploymentRes cfg ext bctx w cp).init_containers =
        listOpt (k8sWorkload cfg ext bctx w cp).init_containers := by
      simp only [k8sDeploymentRes]
    rw [hinit, hwl.2]

/-- Config and base context for the C1 witness: unset volume type (the
default EmptyDir path on K8s). -/
def cfgC1w : ServerBaseArgs :=
  { mount_workspace := true, create_git_sync_sidecar := true }

def extC1w : PhidataAppCtx :=
  { workspace_root_path := some ("/ws/app"), container_paths := some { } }

/-- C1 witness: the amended theorem at a concrete configuration. -/
theorem c1_witness :
    cfgC1w.git_sync_repo = none ∧
    ((get_k8s_rg cfgC1w extC1w (some (.k8s { }))).isBuilt = true ∧
     k8sMainContainerNames (get_k8s_rg cfgC1w extC1w (some (.k8s { }))) =
       some (extC1w.container_name_resolved ::
         (cfgC1w.extra_containers.getD []).map (fun c => c.container_name)) ∧
     k8sInitContainersOf (get_k8s_rg cfgC1w extC1w (some (.k8s { }))) =
       listOpt (cfgC1w.extra_init_containers.getD [])) :=
  ⟨rfl, c1_no_sidecar cfgC1w extC1w { } ("/ws/app") { } rfl rfl rfl
    (Or.inl rfl) rfl rfl⟩

/-- Config and base context for the C8 counterexample: the caller supplies
their own default-container annotation. -/
def cfgC8 : ServerBaseArgs :=
  { pod_annotations := some
      [("kubectl.kubernetes.io/default-container", "other")] }

def extC8 : PhidataAppCtx :=
  { workspace_root_path := some ("/ws/app"), container_paths := some { },
    container_name_resolved := "main" }

/-- C8 counterexample: the primary container is named main, yet the pod
annotation maps the default-container key to the caller-supplied value
other — caller pod_annotations are applied after the default and overwrite
it, refuting the claim for caller-supplied annotations binding that key. -/
theorem c8_counterexample :
    k8sPrimaryContainerName
      (get_k8s_rg cfgC8 extC8 (some (BuildContext.k8s { }))) = some ("main") ∧
    k8sPodAnnotationValue
      (get_k8s_rg cfgC8 extC8 (some (BuildContext.k8s { })))
      ("kubectl.kubernetes.io/default-container") = some ("other") := by
  exact ⟨by decide, by decide⟩

/-- C8 amended: the generated Deployment annotates the pod with the
default-container key bound to the primary container name, except that a
caller-supplied pod_annotations entry for the same key overwrites it; in
particular with no caller entry for the key the annotation is exactly the
primary container name. -/
theorem c8_default_container_key (cfg : ServerBaseArgs)
    (ext : PhidataAppCtx) (bctx : K8sBuildContext) (w : String)
    (cp : ContainerPathContext)
    (hws : ext.workspace_root_path = some w)
    (hcp : ext.container_paths = some cp)
    (hnd : nodupKeys (cfg.pod_annotations.getD []) = true) :
    k8sPodAnnotationValue (get_k8s_rg cfg ext (some (.k8s bctx)))
        ("kubectl.kubernetes.io/default-container") =
      optOr (dictLookup (cfg.pod_annotations.getD [])
          ("kubectl.kubernetes.io/default-container"))
        (some ext.container_name_resolved) ∧
    k8sPrimaryContainerName (get_k8s_rg cfg ext (some (.k8s bctx))) =
      some ext.container_name_resolved := by
  have hmain := k8sMainDeployment_eq cfg ext bctx w cp hws hcp
  constructor
  · unfold k8sPodAnnotationValue
    rw [hmain]
    show dictLookup (k8sDeploymentRes cfg ext bctx w cp).pod_annotations
      ("kubectl.kubernetes.io/default-container") = _
    have hpa : (k8sDeploymentRes cfg ext bctx w cp).pod_annotations =
        k8sPodAnnotationsMap cfg ext := by
      simp only [k8sDeploymentRes]
    rw [hpa]
    unfold k8sPodAnnotationsMap
    rw [dictLookup_updateOpt _ _ _ hnd]
    have hbase : dictLookup
        [("kubectl.kubernetes.io/default-container",
          ext.container_name_resolved)]
        ("kubectl.kubernetes.io/default-container") =
        some ext.container_name_resolved := by
      simp [dictLookup]
    rw [hbase]
  · unfold k8sPrimaryContainerName
    rw [hmain]
    show (match (k8sDeploymentRes cfg ext bctx w cp).containers with
      | c :: _ => some c.container_name
      | [] => none) = _
    have hcont0 : (k8sDeploymentRes cfg ext bctx w cp).containers =
        k8sSparkContainer cfg ext bctx w cp ::
          (k8sWorkload cfg ext bctx w cp).containers := by
      simp only [k8sDeploymentRes]
    rw [hcont0]
    show some (k8sSparkContainer cfg ext bctx w cp).container_name = _
    simp only [k8sSparkContainer]

/-- Config and base context for the C8 witness: no caller annotations. -/
def cfgC8w : ServerBaseArgs := { }

def extC8w : PhidataAppCtx :=
  { workspace_root_path := some ("/ws/app"), container_paths := some { } }

/-- C8 witness: the amended theorem at a concrete configuration. -/
theorem c8_witness :
    nodupKeys (cfgC8w.pod_annotations.getD []) = true ∧
    (k8sPodAnnotationValue (get_k8s_rg cfgC8w extC8w (some (.k8s { })))
        ("kubectl.kubernetes.io/default-container") =
      optOr (dictLookup (cfgC8w.pod_annotations.getD [])
          ("kubectl.kubernetes.io/default-container"))
        (some extC8w.container_name_resolved) ∧
     k8sPrimaryContainerName (get_k8s_rg cfgC8w extC8w (some (.k8s { }))) =
       some extC8w.container_name_resolved) :=
  ⟨rfl, c8_default_container_key cfgC8w extC8w { } ("/ws/app") { }
    rfl rfl rfl⟩

/-- C5: for every AppConfig, the env map of the generated K8s ConfigMap
follows the precedence static base markers, then AWS-derived vars, then
env-file vars, then inline env, each later source fully overwriting keys it
also defines (inline env wins ties over the env file, which wins over the
base variables; secret sources never enter the ConfigMap — the source
routes them to a separate Secret object); the docker container env follows
the same order with the two secret layers of set_container_env interleaved
per the spec: env file, then secrets file, then inline env, then inline
secrets, each overwriting earlier keys.  The nodup hypotheses only record
that Python dict keys are unique. -/
theorem c5_env_precedence (cfg : ServerBaseArgs) (ext : PhidataAppCtx)
    (bctx : K8sBuildContext) (dctx : DockerBuildContext) (w : String)
    (cp : ContainerPathContext)
    (hws : ext.workspace_root_path = some w)
    (hcp : ext.container_paths = some cp)
    (hnda : nodupKeys ext.aws_env = true)
    (hndf : nodupKeys (ext.env_file_data.getD []) = true)
    (hnde : nodupKeys (cfg.env.getD []) = true)
    (hnds : nodupKeys (ext.secret_data.getD []) = true)
    (hndsec : nodupKeys (cfg.secrets.getD []) = true) :
    (∃ d, k8sEnvConfigMapData (get_k8s_rg cfg ext (some (.k8s bctx))) =
        some d ∧
      ∀ k, dictLookup d k =
        optOr (dictLookup (cfg.env.getD []) k)
          (optOr (dictLookup (ext.env_file_data.getD []) k)
            (optOr (dictLookup ext.aws_env k)
              (dictLookup (baseContainerEnv ("kubernetes")
                (some (resolved_python_path cfg cp)) cfg cp) k)))) ∧
    (∃ d, dockerEnvOf (get_docker_rg cfg ext (some (.docker dctx))) =
        some d ∧
      ∀ k, dictLookup d k =
        optOr (dictLookup (cfg.secrets.getD []) k)
          (optOr (dictLookup (cfg.env.getD []) k)
            (optOr (dictLookup (ext.secret_data.getD []) k)
              (optOr (dictLookup (ext.env_file_data.getD []) k)
                (optOr (dictLookup ext.aws_env k)
                  (dictLookup (baseContainerEnv ("docker")
                    (some (resolved_python_path cfg cp)) cfg cp) k)))))) := by
  constructor
  · refine ⟨k8sContainerEnvMap cfg ext cp, ?_, ?_⟩
    · rw [get_k8s_rg_built cfg ext bctx w cp hws hcp]
      show (match (k8sGroup cfg ext bctx w cp).config_maps with
        | some cms => (cms.getLast?).map (fun cm : CreateConfigMap => cm.data)
        | none => none) = _
      have hcms : (k8sGroup cfg ext bctx w cp).config_maps =
          some (k8sConfigMaps cfg ext bctx cp) := by
        simp only [k8sGroup]
        simp [listOpt, k8sConfigMaps, append_single_isEmpty]
      rw [hcms]
      show (k8sConfigMaps cfg ext bctx cp).getLast?.map
        (fun cm : CreateConfigMap => cm.data) = _
      unfold k8sConfigMaps
      rw [getLast?_append_single]
      show some (k8sEnvConfigMap cfg ext bctx cp).data = _
      simp only [k8sEnvConfigMap]
    · intro k
      simp only [k8sContainerEnvMap]
      rw [dictLookup_updateOpt _ cfg.env k hnde,
        dictLookup_updateOpt _ ext.env_file_data k hndf]
      simp only [set_aws_env_vars]
      rw [dictLookup_update _ _ _ hnda]
  · refine ⟨dockerContainerEnvMap cfg ext cp, ?_, ?_⟩
    · simp [get_docker_rg, hws, hcp, dockerEnvOf, dockerGroup]
    · intro k
      simp only [dockerContainerEnvMap, set_container_env]
      rw [dictLookup_updateOpt _ cfg.secrets k hndsec,
        dictLookup_updateOpt _ cfg.env k hnde,
        dictLookup_updateOpt _ ext.secret_data k hnds,
        dictLookup_updateOpt _ ext.env_file_data k hndf]
      simp only [set_aws_env_vars]
      rw [dictLookup_update _ _ _ hnda]

/-- Config and base context for the C5 witness: one variable from each of
the five sources, with the inline env overriding the env file on the
shared key and an inline secret present. -/
def cfgC5 : ServerBaseArgs :=
  { env := some [("SHARED", PyVal.str ("inline")), ("ONLY_INLINE",
      PyVal.str ("i"))],
    secrets := some [("TOP_SECRET", PyVal.str ("t"))] }

def extC5 : PhidataAppCtx :=
  { workspace_root_path := some ("/ws/app"), container_paths := some { },
    aws_env := [("AWS_REGION", PyVal.str ("us-east-1"))],
    env_file_data := some [("SHARED", PyVal.str ("file")), ("ONLY_FILE",
      PyVal.str ("f"))],
    secret_data := some [("FROM_SECRET_FILE", PyVal.str ("s"))] }

/-- C5 witness: the theorem at a concrete configuration. -/
theorem c5_witness :
    nodupKeys (cfgC5.env.getD []) = true ∧
    nodupKeys (cfgC5.secrets.getD []) = true ∧
    ((∃ d, k8sEnvConfigMapData (get_k8s_rg cfgC5 extC5 (some (.k8s { }))) =
        some d ∧
      ∀ k, dictLookup d k =
        optOr (dictLookup (cfgC5.env.getD []) k)
          (optOr (dictLookup (extC5.env_file_data.getD []) k)
            (optOr (dictLookup extC5.aws_env k)
              (dictLookup (baseContainerEnv ("kubernetes")
                (some (resolved_python_path cfgC5 { })) cfgC5 { }) k)))) ∧
     (∃ d, dockerEnvOf (get_docker_rg cfgC5 extC5
          (some (.docker { network := "phi" }))) = some d ∧
      ∀ k, dictLookup d k =
        optOr (dictLookup (cfgC5.secrets.getD []) k)
          (optOr (dictLookup (cfgC5.env.getD []) k)
            (optOr (dictLookup (extC5.secret_data.getD []) k)
              (optOr (dictLookup (extC5.env_file_data.getD []) k)
                (optOr (dictLookup extC5.aws_env k)
                  (dictLookup (baseContainerEnv ("docker")
                    (some (resolved_python_path cfgC5 { })) cfgC5 { }) k))))))) :=
  ⟨rfl, rfl,
    c5_env_precedence cfgC5 extC5 { } { network := "phi" } ("/ws/app") { }
      rfl rfl rfl rfl rfl rfl rfl⟩

/-- C9: whenever the AWS build returns a resource group, the log
configuration of its ECS container is exactly the awslogs driver with the
options group and stream-prefix named after the app and region taken from
the AWS config, with awslogs-create-group true. -/
theorem c9_ecs_log_configuration (cfg : ServerBaseArgs) (ext : PhidataAppCtx)
    (ctx : Option BuildContext) (g : AwsResourceGroup)
    (h : get_aws_rg cfg ext ctx = .built g) :
    awsEcsLogConfigOf (get_aws_rg cfg ext ctx) =
      some { logDriver := "awslogs",
             options := [("awslogs-group", cfg.name),
                         ("awslogs-region", ext.aws_region),
                         ("awslogs-create-group", "true"),
                         ("awslogs-stream-prefix", cfg.name)] } := by
  unfold get_aws_rg at h ⊢
  cases hws : ext.workspace_root_path with
  | none =>
    rw [hws] at h
    exact BuildResult.noConfusion h
  | some w =>
    rw [hws] at h
    cases hcp : ext.container_paths_aws with
    | none =>
      rw [hcp] at h
      exact BuildResult.noConfusion h
    | some cp =>
      rw [hcp] at h
      cases hv : getVpcId ext.vpc_of_subnet cfg.aws_subnets with
      | error e =>
        rw [hv] at h
        exact BuildResult.noConfusion h
      | ok vpc =>
        show awsEcsLogConfigOf (.built (awsGroup cfg ext cp vpc)) = _
        simp [awsEcsLogConfigOf, awsGroup, awsLogConfiguration]

/-- Config and base context for the C9 witness: a single subnet in vpc-1. -/
def cfgC9 : ServerBaseArgs := { aws_subnets := some ["subnet-a"] }

def extC9 : PhidataAppCtx :=
  { workspace_root_path := some ("/ws/app"), container_paths_aws := some { },
    vpc_of_subnet := fun _ => "vpc-1" }

/-- C9 witness: the theorem at a concrete successful AWS build. -/
theorem c9_witness :
    get_aws_rg cfgC9 extC9 (some (BuildContext.aws { })) =
      .built (awsGroup cfgC9 extC9 { } ("vpc-1")) ∧
    awsEcsLogConfigOf (get_aws_rg cfgC9 extC9 (some (BuildContext.aws { }))) =
      some { logDriver := "awslogs",
             options := [("awslogs-group", cfgC9.name),
                         ("awslogs-region", extC9.aws_region),
                         ("awslogs-create-group", "true"),
                         ("awslogs-stream-prefix", cfgC9.name)] } :=
  ⟨by decide,
    c9_ecs_log_configuration cfgC9 extC9 (some (BuildContext.aws { }))
      (awsGroup cfgC9 extC9 { } ("vpc-1")) (by decide)⟩

end Phidata
